import Mathlib

/-!
# Contact Navigator — verification of the pool-based waterfall engine

Shallow embedding of the quantitative core of the `contact-navigator`
repository (files `engines/intent_profile.py`, `engines/pools.py`,
`engines/gross.py` and the waterfall cascade of `engines/waterfall.py`)
over exact rational arithmetic, together with theorems settling the
frozen claims about it.

Modelling conventions:
* Python floats are modelled as `ℚ` (exact arithmetic); the logistic
  S-curve ramp, which uses `math.exp`, is modelled over `ℝ` with
  `Real.exp`.
* Python's `round(x, n)` is modelled as `roundTo n` using Mathlib's
  `round` (round half away from zero upward); Python rounds ties to
  even, but no statement below sits on an exact tie.
* Python dicts keyed by strings are modelled as association lists;
  `dict.get(k, d)` becomes a lookup with a default.
* Exception handlers (`try/except`) guard only malformed input in the
  source; the embedded functions are total, so the fallback branches
  are dead and are not modelled.
* Per-pool `breakdown` audit lists and human-readable `mechanism`
  strings are display-only (the source never reads them back); they are
  omitted from the embedded records.
-/

namespace ContactNavigator

/-- Python's `round(x, n)`: round to `n` decimal digits. -/
def roundTo (n : ℕ) (x : ℚ) : ℚ := (round (x * 10 ^ n) : ℤ) / 10 ^ n

/-- `round(x, 1)` -/
def rnd1 (x : ℚ) : ℚ := roundTo 1 x

/-- `round(x, 3)` -/
def rnd3 (x : ℚ) : ℚ := roundTo 3 x

/-- `round(x, 4)` -/
def rnd4 (x : ℚ) : ℚ := roundTo 4 x

/-- `round(x)` (to an integer, kept in `ℚ`). -/
def rnd0 (x : ℚ) : ℚ := roundTo 0 x

/-- Does the pattern match at the head of the text? -/
def leadMatch : List Char → List Char → Bool
  | [], _ => true
  | _ :: _, [] => false
  | p :: ps, t :: ts => p == t && leadMatch ps ts

/-- Does the text contain the pattern as a contiguous substring? -/
def hasSub (pat : List Char) : List Char → Bool
  | [] => leadMatch pat []
  | t :: ts => leadMatch pat (t :: ts) || hasSub pat ts

/-- Python's `kw in s` substring test. -/
def strHas (s pat : String) : Bool := hasSub pat.toList s.toList

/-- Python's `s.lower()`. -/
def lowerStr (s : String) : String := String.mk (s.toList.map Char.toLower)

/-! ## Data model

`Queue` mirrors the normalized queue records handed to the core
(fields read by the embedded slice; `csat` and `bu` are never read by
it and are omitted). -/

structure Queue where
  intent : String
  channel : String
  volume : ℚ
  aht : ℚ
  acw : ℚ
  complexity : ℚ
  transfer : ℚ
  escalation : ℚ
  repeatRate : ℚ      -- the `repeat` field of the source records
  fcr : ℚ
  deriving Repr, DecidableEq

structure Role where
  role : String
  headcount : ℚ
  costPerFTE : ℚ
  deriving Repr, DecidableEq

/-- System parameters (`data['params']`).  Python reads them with
`params.get(key, default)`; here every key is a total field, with the
source defaults supplied by concrete inputs. -/
structure Params where
  horizon : ℕ
  discountRate : ℚ
  wageInflation : ℚ
  shrinkage : ℚ
  targetShrinkage : ℚ
  grossHoursPerYear : ℚ
  volumeAnnualizationFactor : ℚ
  locationArbitrage : ℚ
  redeploymentPct : ℚ
  attritionMonthly : ℚ
  volumeGrowth : ℚ
  deriving Repr, DecidableEq

/-! ## Intent enrichment (`engines/intent_profile.py`) -/

/-- `_repeatability_from_complexity` -/
def repeatabilityFromComplexity (c : ℚ) : ℚ :=
  if c ≤ 0.20 then 0.85
  else if c ≤ 0.35 then 0.65
  else if c ≤ 0.50 then 0.45
  else if c ≤ 0.70 then 0.25
  else 0.10

/-- Keyword lists of `_emotional_risk_from_complexity`. -/
def highEmotionKeywords : List String :=
  ["complaint", "dispute", "cancel", "fraud", "bereavement",
   "hardship", "escalat", "threat", "legal"]

def midEmotionKeywords : List String :=
  ["refund", "billing", "overcharge", "disconnect",
   "terminate", "close account"]

/-- `_emotional_risk_from_complexity` -/
def emotionalRiskFromComplexity (c : ℚ) (intentName : String) : ℚ :=
  let nameLower := lowerStr intentName
  if highEmotionKeywords.any (fun kw => strHas nameLower kw) then 0.85
  else if midEmotionKeywords.any (fun kw => strHas nameLower kw) then 0.60
  else if c ≤ 0.25 then 0.10
  else if c ≤ 0.45 then 0.25
  else if c ≤ 0.65 then 0.45
  else 0.65

def noAuthKeywords : List String :=
  ["faq", "general", "product info", "hours", "location",
   "status check", "tracking", "pricing"]

def highAuthKeywords : List String :=
  ["account change", "password", "transaction", "transfer",
   "payment", "address change", "personal detail"]

/-- `_auth_required_from_complexity` -/
def authRequiredFromComplexity (c : ℚ) (intentName : String) : ℚ :=
  let nameLower := lowerStr intentName
  if noAuthKeywords.any (fun kw => strHas nameLower kw) then 0.10
  else if highAuthKeywords.any (fun kw => strHas nameLower kw) then 0.90
  else if c ≤ 0.25 then 0.20
  else if c ≤ 0.50 then 0.50
  else 0.75

/-- `_containment_feasibility` -/
def containmentFeasibility (repeatability emotionalRisk authRequired complexity : ℚ) : ℚ :=
  let base := repeatability * 0.40 + (1 - emotionalRisk) * 0.25
      + (1 - authRequired) * 0.25 + (1 - complexity) * 0.10
  let base := if authRequired > 0.80 then base * 0.50 else base
  rnd3 (min 1 (max 0 base))

/-- AHT decomposition record (`_decompose_aht` output). -/
structure AhtDecomp where
  talk_sec : ℚ
  hold_sec : ℚ
  search_sec : ℚ
  other_sec : ℚ
  wrap_sec : ℚ
  total_handle_sec : ℚ
  reducible_sec : ℚ
  deriving Repr, DecidableEq

/-- `_decompose_aht` -/
def decomposeAht (ahtMinutes acwMinutes complexity : ℚ) : AhtDecomp :=
  let ahtSec := ahtMinutes * 60
  let acwSec := acwMinutes * 60
  let tps : ℚ × ℚ × ℚ :=
    if complexity ≤ 0.25 then (0.55, 0.05, 0.25)
    else if complexity ≤ 0.50 then (0.55, 0.10, 0.20)
    else if complexity ≤ 0.70 then (0.55, 0.15, 0.18)
    else (0.50, 0.20, 0.15)
  let talkPct := tps.1
  let holdPct := tps.2.1
  let searchPct := tps.2.2
  let otherPct := max 0 (1 - talkPct - holdPct - searchPct)
  { talk_sec := rnd1 (ahtSec * talkPct)
    hold_sec := rnd1 (ahtSec * holdPct)
    search_sec := rnd1 (ahtSec * searchPct)
    other_sec := rnd1 (ahtSec * otherPct)
    wrap_sec := rnd1 acwSec
    total_handle_sec := rnd1 (ahtSec + acwSec)
    reducible_sec := rnd1 (ahtSec * searchPct + acwSec * 0.80
      + ahtSec * talkPct * 0.15 + ahtSec * holdPct * 0.30) }

/-- Transfer classification record (`_transfer_classification` output). -/
structure TransferClass where
  total_rate : ℚ
  preventable_rate : ℚ
  structural_rate : ℚ
  preventable_share : ℚ
  deriving Repr, DecidableEq

/-- `_transfer_classification` -/
def transferClassification (transferRate escalationRate complexity : ℚ) : TransferClass :=
  if transferRate ≤ 0 then
    { total_rate := 0, preventable_rate := 0, structural_rate := 0, preventable_share := 0 }
  else
    let share : ℚ :=
      if complexity ≤ 0.30 then 0.75
      else if complexity ≤ 0.55 then 0.50
      else if complexity ≤ 0.75 then 0.30
      else 0.15
    let share := if escalationRate > 0.15 then share * 0.70 else share
    { total_rate := rnd4 transferRate
      preventable_rate := rnd4 (transferRate * share)
      structural_rate := rnd4 (transferRate * (1 - share))
      preventable_share := rnd3 share }

def digitalChannels : List String :=
  ["Chat", "Email", "App/Self-Service", "SMS/WhatsApp", "Social Media"]

/-- `_migration_readiness` -/
def migrationReadiness (channel : String) (complexity emotionalRisk authRequired : ℚ) : ℚ :=
  if channel ∈ digitalChannels then 0
  else if channel = "IVR" then 0.20 * (1 - complexity)
  else
    let base := 0.80 - complexity * 0.30 - emotionalRisk * 0.25 - authRequired * 0.15
    rnd3 (max 0 (min 1 base))

/-- An enriched queue: the original record plus the profile fields
added by `enrich_intents`. -/
structure EnrichedQueue where
  q : Queue
  repeatability : ℚ
  emotional_risk : ℚ
  auth_required : ℚ
  containment_feasibility : ℚ
  deflection_eligible_pct : ℚ
  aht_decomp : AhtDecomp
  transfer_class : TransferClass
  migration_readiness : ℚ
  deriving Repr, DecidableEq

/-- `enrich_intents` applied to one queue record.  As in the source,
rounded values are stored while the raw (unrounded) intermediate values
feed the derived attributes. -/
def enrichQueue (q : Queue) : EnrichedQueue :=
  let complexity := q.complexity
  let repeatability0 := repeatabilityFromComplexity complexity
  let repeatability :=
    if q.repeatRate > 0.15 then min 1 (repeatability0 + 0.15) else repeatability0
  let emotionalRisk := emotionalRiskFromComplexity complexity q.intent
  let authRequired := authRequiredFromComplexity complexity q.intent
  let containment := containmentFeasibility repeatability emotionalRisk authRequired complexity
  { q := q
    repeatability := rnd3 repeatability
    emotional_risk := rnd3 emotionalRisk
    auth_required := rnd3 authRequired
    containment_feasibility := containment
    deflection_eligible_pct := rnd3 (repeatability * (1 - authRequired * 0.30))
    aht_decomp := decomposeAht q.aht q.acw complexity
    transfer_class := transferClassification q.transfer q.escalation complexity
    migration_readiness := migrationReadiness q.channel complexity emotionalRisk authRequired }

/-- `enrich_intents` -/
def enrichIntents (queues : List Queue) : List EnrichedQueue :=
  queues.map enrichQueue

/-! ## Opportunity pools (`engines/pools.py`)

A `Pool` models one of the per-lever dicts built by `compute_pools`.
Keys that only some pools carry are `Option`-valued (`'k' in pool`
becomes `isSome`); the audit-only `breakdown` lists are omitted. -/

structure Pool where
  ceiling_fte : ℚ
  remaining_fte : ℚ
  ceiling_saving : ℚ
  unit : String
  ceiling_contacts : Option ℚ := none
  remaining_contacts : Option ℚ := none
  ceiling_seconds : Option ℚ := none
  remaining_seconds : Option ℚ := none
  ceiling_hours : Option ℚ := none
  ceiling_pct : Option ℚ := none
  remaining_saving : Option ℚ := none
  migratable_share : Option ℚ := none
  cost_arbitrage : Option ℚ := none
  current_shrinkage : Option ℚ := none
  target_shrinkage : Option ℚ := none
  gap : Option ℚ := none
  deriving Repr, DecidableEq

/-- The `pools` dict: an association list keyed by pool name. -/
abbrev PoolMap : Type := List (String × Pool)

/-- `pools.get(key)` -/
def lookupPool (pools : PoolMap) (k : String) : Option Pool :=
  (List.find? (fun e => e.1 = k) pools).map (·.2)

/-- In-place mutation of `pools[key]` (first matching entry). -/
def setPool : PoolMap → String → Pool → PoolMap
  | [], _, _ => []
  | (k', p') :: rest, k, p =>
      if k' = k then (k', p) :: rest else (k', p') :: setPool rest k p

theorem lookupPool_cons (k' : String) (p : Pool) (rest : PoolMap) (k : String) :
    lookupPool ((k', p) :: rest) k = if k' = k then some p else lookupPool rest k := by
  by_cases h : k' = k <;> simp [lookupPool, List.find?, h]

theorem lookupPool_setPool_self (m : PoolMap) (k : String) (p : Pool)
    (h : (lookupPool m k).isSome) : lookupPool (setPool m k p) k = some p := by
  induction m with
  | nil => simp [lookupPool] at h
  | cons e rest ih =>
      obtain ⟨ek, ep⟩ := e
      simp only [setPool]
      split_ifs with he
      · rw [lookupPool_cons, if_pos he]
      · rw [lookupPool_cons, if_neg he]
        rw [lookupPool_cons, if_neg he] at h
        exact ih h

theorem lookupPool_setPool_ne (m : PoolMap) (k k' : String) (p : Pool)
    (h : k ≠ k') : lookupPool (setPool m k' p) k = lookupPool m k := by
  induction m with
  | nil => simp [setPool]
  | cons e rest ih =>
      obtain ⟨ek, ep⟩ := e
      simp only [setPool]
      split_ifs with he
      · have hnk : ¬ ek = k := by rw [he]; exact fun hk => h hk.symm
        rw [lookupPool_cons, if_neg hnk, lookupPool_cons, if_neg hnk]
      · rw [lookupPool_cons, lookupPool_cons]
        by_cases hek : ek = k
        · rw [if_pos hek, if_pos hek]
        · rw [if_neg hek, if_neg hek]
          exact ih

/-- Summary block of `compute_pools`. -/
structure PoolSummary where
  total_pool_fte : ℚ
  total_pool_saving : ℚ
  total_fte : ℚ
  total_volume : ℚ
  net_prod_hours : ℚ
  weighted_cost_per_fte : ℚ
  shrinkage : ℚ
  deriving Repr, DecidableEq

structure PoolResult where
  pools : PoolMap
  summary : PoolSummary
  annualization_factor : ℚ
  deriving Repr, DecidableEq

/-- Roles eligible for location migration (`migratable_roles`). -/
def migratableRoles : List String :=
  ["Agent L1", "Agent L2 / Specialist", "Back-Office / Processing"]

/-! `compute_pools` is split into one small definition per aggregate,
mirroring the successive blocks of the source function. -/

/-- `total_fte = sum(r['headcount'] for r in roles)` -/
def totalFteOf (roles : List Role) : ℚ := (roles.map (·.headcount)).sum

/-- `net_prod_hours = gross_hours_year * (1 - shrinkage)` -/
def netProdHoursOf (params : Params) : ℚ :=
  params.grossHoursPerYear * (1 - params.shrinkage)

/-- `total_volume = total_volume_raw * annualization` -/
def totalVolumeOf (enrichedQueues : List EnrichedQueue) (params : Params) : ℚ :=
  ((enrichedQueues.map (fun q => q.q.volume)).sum) * params.volumeAnnualizationFactor

/-- `ann_queues`: each enriched queue paired with its `annual_volume`. -/
def annQueuesOf (enrichedQueues : List EnrichedQueue) (params : Params) :
    List (EnrichedQueue × ℚ) :=
  enrichedQueues.map (fun q => (q, q.q.volume * params.volumeAnnualizationFactor))

/-- Weighted average cost per FTE over the roster (55000 fallback). -/
def weightedCostOf (roles : List Role) : ℚ :=
  if totalFteOf roles > 0 then
    (roles.map (fun r => r.headcount * r.costPerFTE)).sum / totalFteOf roles
  else 55000

/-- `deflectable_contacts` aggregate. -/
def deflectableContactsOf (aq : List (EnrichedQueue × ℚ)) : ℚ :=
  (aq.map (fun qv => qv.2 * qv.1.deflection_eligible_pct * qv.1.containment_feasibility)).sum

/-- Volume-weighted average AHT in seconds over the annualized queues. -/
def avgAhtSecOf (aq : List (EnrichedQueue × ℚ)) (totalVolume : ℚ) : ℚ :=
  (aq.map (fun qv => qv.1.q.aht * 60 * qv.2)).sum / max totalVolume 1

/-- `total_reducible_seconds` aggregate. -/
def reducibleSecondsOf (aq : List (EnrichedQueue × ℚ)) : ℚ :=
  (aq.map (fun qv => qv.2 * qv.1.aht_decomp.reducible_sec)).sum

/-- `total_preventable_transfers` aggregate. -/
def preventableTransfersOf (aq : List (EnrichedQueue × ℚ)) : ℚ :=
  (aq.map (fun qv => qv.2 * qv.1.transfer_class.preventable_rate)).sum

/-- `total_preventable_escalations` aggregate. -/
def preventableEscalationsOf (aq : List (EnrichedQueue × ℚ)) : ℚ :=
  (aq.map (fun qv =>
    qv.2 * qv.1.q.escalation * max 0.10 (0.60 - qv.1.q.complexity * 0.50))).sum

/-- Volume-weighted repeat rate. -/
def weightedRepeatOf (aq : List (EnrichedQueue × ℚ)) (totalVolume : ℚ) : ℚ :=
  (aq.map (fun qv => qv.1.q.repeatRate * qv.2)).sum / max totalVolume 1

/-- Volume-weighted FCR. -/
def weightedFcrOf (aq : List (EnrichedQueue × ℚ)) (totalVolume : ℚ) : ℚ :=
  (aq.map (fun qv => qv.1.q.fcr * qv.2)).sum / max totalVolume 1

/-- `total_repeat_contacts` aggregate (with the V6 sparse-data fallback). -/
def repeatContactsOf (aq : List (EnrichedQueue × ℚ)) (totalVolume : ℚ) : ℚ :=
  let useFallback := weightedRepeatOf aq totalVolume < 0.02
  let fallbackRepeat := max 0.05 ((1 - weightedFcrOf aq totalVolume) * 0.60)
  (aq.map (fun qv =>
    let repeatRate := if useFallback then fallbackRepeat else qv.1.q.repeatRate
    let fcrTarget := 0.90 - qv.1.q.complexity * 0.15
    let fcrGap := max 0 (fcrTarget - qv.1.q.fcr)
    let reducibleRepeat := qv.2 * repeatRate * min 1 (fcrGap / max repeatRate 0.01)
    min reducibleRepeat (qv.2 * repeatRate * 0.70))).sum

/-- `migratable_share` aggregate. -/
def migratableShareOf (aq : List (EnrichedQueue × ℚ)) (totalVolume : ℚ) : ℚ :=
  (aq.map (fun qv => qv.2 * qv.1.migration_readiness)).sum / max totalVolume 1

/-- FTE in migratable roles. -/
def migratableFteOf (roles : List Role) : ℚ :=
  ((roles.filter (fun r => r.role ∈ migratableRoles)).map (·.headcount)).sum

/-- A pool whose native unit is a per-contact count. -/
def mkContactPool (contacts fte weightedCost : ℚ) (unit : String) : Pool :=
  { ceiling_contacts := some (rnd0 contacts)
    ceiling_fte := rnd1 fte
    ceiling_saving := rnd0 (fte * weightedCost)
    unit := unit
    remaining_contacts := some (rnd0 contacts)
    remaining_fte := rnd1 fte }

/-- `compute_pools`.  Every ceiling/remaining figure follows the source
line by line; queue volumes are annualized inside via
`annual_volume = volume * annualization`. -/
def computePools (enrichedQueues : List EnrichedQueue) (roles : List Role)
    (params : Params) : PoolResult :=
  let totalFte := totalFteOf roles
  let netProdHours := netProdHoursOf params
  let totalVolume := totalVolumeOf enrichedQueues params
  let aq := annQueuesOf enrichedQueues params
  let weightedCost := weightedCostOf roles
  -- 1. deflection pool
  let deflectableContacts := deflectableContactsOf aq
  let avgAhtSec := avgAhtSecOf aq totalVolume
  let deflectionFte := deflectableContacts * avgAhtSec / 3600 / max netProdHours 1
  let deflectionPool :=
    { mkContactPool deflectableContacts deflectionFte weightedCost "contacts" with
      ceiling_pct := some (rnd4 (deflectableContacts / max totalVolume 1)) }
  -- 2. AHT reduction pool
  let totalReducibleSeconds := reducibleSecondsOf aq
  let ahtHours := totalReducibleSeconds / 3600
  let ahtFte := ahtHours / max netProdHours 1
  let ahtPool : Pool :=
    { ceiling_seconds := some (rnd0 totalReducibleSeconds)
      ceiling_hours := some (rnd1 ahtHours)
      ceiling_fte := rnd1 ahtFte
      ceiling_saving := rnd0 (ahtFte * weightedCost)
      unit := "seconds"
      remaining_seconds := some (rnd0 totalReducibleSeconds)
      remaining_fte := rnd1 ahtFte }
  -- 3. transfer and escalation pools (180 s per transfer, 300 s per escalation)
  let totalPreventableTransfers := preventableTransfersOf aq
  let transferFte := totalPreventableTransfers * 180 / 3600 / max netProdHours 1
  let transferPool := mkContactPool totalPreventableTransfers transferFte weightedCost "transfers"
  let totalPreventableEscalations := preventableEscalationsOf aq
  let escFte := totalPreventableEscalations * 300 / 3600 / max netProdHours 1
  let escalationPool := mkContactPool totalPreventableEscalations escFte weightedCost "escalations"
  -- 4. repeat / FCR pool
  let totalRepeatContacts := repeatContactsOf aq totalVolume
  let repeatFte := totalRepeatContacts * avgAhtSec / 3600 / max netProdHours 1
  let repeatPool := mkContactPool totalRepeatContacts repeatFte weightedCost "contacts"
  -- 5. location pool
  let migratableShare := migratableShareOf aq totalVolume
  let migratableFteAdjusted := migratableFteOf roles * migratableShare
  let locationSaving := migratableFteAdjusted * weightedCost * params.locationArbitrage
  let locationPool : Pool :=
    { ceiling_fte := rnd1 migratableFteAdjusted
      ceiling_saving := rnd0 locationSaving
      migratable_share := some (rnd3 migratableShare)
      cost_arbitrage := some params.locationArbitrage
      unit := "fte"
      remaining_fte := rnd1 migratableFteAdjusted
      remaining_saving := some (rnd0 locationSaving) }
  -- 6. shrinkage pool
  let shrinkageGap := max 0 (params.shrinkage - params.targetShrinkage)
  let shrinkageFte := totalFte * shrinkageGap
  let shrinkageSaving := shrinkageFte * weightedCost
  let shrinkagePool : Pool :=
    { current_shrinkage := some (rnd3 params.shrinkage)
      target_shrinkage := some (rnd3 params.targetShrinkage)
      gap := some (rnd3 shrinkageGap)
      ceiling_fte := rnd1 shrinkageFte
      ceiling_saving := rnd0 shrinkageSaving
      unit := "fte"
      remaining_fte := rnd1 shrinkageFte
      remaining_saving := some (rnd0 shrinkageSaving) }
  let pools : PoolMap :=
    [("deflection", deflectionPool), ("aht_reduction", ahtPool),
     ("transfer_reduction", transferPool), ("escalation_reduction", escalationPool),
     ("repeat_reduction", repeatPool), ("location", locationPool),
     ("shrinkage_reduction", shrinkagePool)]
  { pools := pools
    summary :=
      { total_pool_fte := rnd1 ((pools.map (fun e => e.2.ceiling_fte)).sum)
        total_pool_saving := rnd0 ((pools.map (fun e => e.2.ceiling_saving)).sum)
        total_fte := totalFte
        total_volume := totalVolume
        net_prod_hours := rnd1 netProdHours
        weighted_cost_per_fte := rnd0 weightedCost
        shrinkage := rnd3 params.shrinkage }
    annualization_factor := params.volumeAnnualizationFactor }

/-- Result dict of `consume_pool`.  The source returns dicts with
different key sets per branch; absent keys are modelled by the
defaults given here. -/
structure ConsumeResult where
  consumed_fte : ℚ := 0
  consumed_contacts : ℚ := 0
  consumed_seconds : ℚ := 0
  capped : Bool := false
  pool_exhausted : Bool := false
  unknown_lever : Bool := false
  pool_remaining_fte : ℚ := 0
  deriving Repr, DecidableEq

/-- `lever_pool_map` -/
def leverPoolMap : List (String × String) :=
  [("deflection", "deflection"), ("aht_reduction", "aht_reduction"),
   ("escalation_reduction", "escalation_reduction"),
   ("transfer_reduction", "transfer_reduction"),
   ("repeat_reduction", "repeat_reduction"),
   ("cost_reduction", "location"),
   ("shrinkage_reduction", "shrinkage_reduction")]

/-- `lever_pool_map.get(lever, lever)` -/
def poolKeyOf (lever : String) : String :=
  ((List.find? (fun e => e.1 = lever) leverPoolMap).map (·.2)).getD lever

/-- The proportional native-unit deductions of `consume_pool`
(`remaining_contacts` / `remaining_seconds` / `remaining_saving`);
`remaining_fte` and the ceilings are untouched here. -/
def consumeSideUnits (pool : Pool) (actualFte capRatio amountContacts amountSeconds : ℚ) :
    Pool :=
  let pool : Pool :=
    if pool.remaining_contacts.isSome ∧ amountContacts > 0 then
      let rc := max 0 (rnd0 (pool.remaining_contacts.getD 0 - amountContacts * capRatio))
      { pool with remaining_contacts := some rc }
    else pool
  let pool : Pool :=
    if pool.remaining_seconds.isSome ∧ amountSeconds > 0 then
      let rs := max 0 (rnd0 (pool.remaining_seconds.getD 0 - amountSeconds * capRatio))
      { pool with remaining_seconds := some rs }
    else pool
  match pool.remaining_saving with
  | some rs =>
      let rs' := max 0 (rnd0 (rs - actualFte * pool.ceiling_saving / max pool.ceiling_fte 0.1))
      { pool with remaining_saving := some rs' }
  | none => pool

/-- `consume_pool` (state-passing: returns the mutated pools dict
together with the result dict).  The `logging.warning` call on the
unknown-lever path is reflected by the `unknown_lever` flag. -/
def consumePool (pools : PoolMap) (lever : String)
    (amountFte amountContacts amountSeconds : ℚ) :
    PoolMap × ConsumeResult :=
  let poolKey := poolKeyOf lever
  match lookupPool pools poolKey with
  | none =>
      (pools, { consumed_fte := 0, capped := true, pool_exhausted := false,
                unknown_lever := true })
  | some pool =>
      let remainingFte := pool.remaining_fte
      if remainingFte ≤ 0 then
        (pools, { consumed_fte := 0, capped := true, pool_exhausted := true })
      else
        let actualFte := min amountFte remainingFte
        let capRatio := actualFte / max amountFte 0.001
        let pool : Pool := { pool with remaining_fte := rnd1 (remainingFte - actualFte) }
        let pool : Pool := consumeSideUnits pool actualFte capRatio amountContacts amountSeconds
        ((setPool pools poolKey pool),
         { consumed_fte := rnd1 actualFte
           consumed_contacts := if amountContacts ≠ 0 then rnd0 (amountContacts * capRatio) else 0
           consumed_seconds := if amountSeconds ≠ 0 then rnd0 (amountSeconds * capRatio) else 0
           capped := capRatio < 0.95
           pool_exhausted := pool.remaining_fte ≤ 0.5
           pool_remaining_fte := pool.remaining_fte })

/-! ## Initiative records (`engines/waterfall.py` data model)

An initiative is split into its input fields (set upstream by
`score_initiatives` / the library) and the result fields written by
`run_waterfall` (the `_fteImpact`, `_annualSaving`, … annotations). -/

structure InitInputs where
  id : String
  layer : String
  lever : String
  impact : ℚ
  adoption : ℚ
  channels : List String
  roles : List String
  effort : String
  ramp : ℕ
  startMonth : ℕ
  benefitEndMonth : ℕ
  matchScore : ℚ
  enabled : Bool
  deriving Repr, DecidableEq

/-- The result annotations `run_waterfall` writes onto an initiative
(`_fteImpact`, `_annualSaving`, `_effectiveImpact`, `_contributionPct`,
`_poolConsumed`, `_poolCapped`, `_grossFTE`, `_grossSaving`,
`_capApplied`, `_startMonth`, `_endMonth`, `_rampCompleteMonth`,
`_linkedQueues`, `_rampPcts`, `_yearlyFactors`).  The ramp factors are
real-valued because the S-curve uses `exp`. -/
structure InitResults where
  fteImpact : ℚ
  annualSaving : ℚ
  effectiveImpact : ℚ
  contributionPct : ℚ
  poolConsumed : ℚ
  grossFTE : ℚ
  grossSaving : ℚ
  poolCapped : Bool
  capApplied : Bool
  startMonthR : ℕ
  endMonthR : ℕ
  rampCompleteMonth : ℕ
  linkedQueues : ℕ
  rampPcts : List ℝ
  yearlyFactors : List ℝ

structure Initiative where
  inputs : InitInputs
  res : InitResults

/-! ## Gross impact (`engines/gross.py`) -/

/-- Return dict of the `_gross_*` formulas.  `_is_location` (present
only in `_gross_location`'s dict) and `gross_fte_migrated` are modelled
as a flag / plain field; `mechanism` strings are omitted. -/
structure GrossResult where
  gross_fte : ℚ
  gross_contacts : ℚ
  gross_seconds : ℚ
  gross_saving : ℚ
  eligible_volume : ℚ
  gross_fte_migrated : ℚ := 0
  is_location : Bool := false
  deriving Repr, DecidableEq

/-- Queue-matching step of `compute_gross_impact` (lines 46–48): the
queues on the initiative's channels, falling back to *all* queues when
none matches. -/
def matchingQueues (channels : List String) (queues : List EnrichedQueue) :
    List EnrichedQueue :=
  let m := queues.filter (fun q => q.q.channel ∈ channels)
  if m = [] then queues else m

/-- Affected roles of an initiative. -/
def affectedRoles (targetRoles : List String) (roles : List Role) : List Role :=
  roles.filter (fun r => r.role ∈ targetRoles)

/-- `affected_fte` -/
def affectedFteOf (targetRoles : List String) (roles : List Role) : ℚ :=
  ((affectedRoles targetRoles roles).map (·.headcount)).sum

/-- Weighted cost per FTE over the affected roles (55000 fallback). -/
def affectedCostOf (targetRoles : List String) (roles : List Role) : ℚ :=
  let fte := affectedFteOf targetRoles roles
  if fte > 0 then
    ((affectedRoles targetRoles roles).map (fun r => r.headcount * r.costPerFTE)).sum / fte
  else 55000

/-- Volume-weighted average AHT (seconds) over a queue list, as used in
`_gross_deflection` and `_gross_repeat`. -/
def grossAvgAhtSec (queues : List EnrichedQueue) : ℚ :=
  (queues.map (fun q => q.q.aht * 60 * q.q.volume)).sum
    / max ((queues.map (fun q => q.q.volume)).sum) 1

/-- `_gross_deflection` -/
def grossDeflection (queues : List EnrichedQueue) (cost netHours impact adoption : ℚ) :
    GrossResult :=
  let totalDeflectable :=
    (queues.map (fun q =>
      q.q.volume * (q.deflection_eligible_pct * min impact q.containment_feasibility * adoption))).sum
  let hoursSaved := totalDeflectable * grossAvgAhtSec queues / 3600
  let grossFte := hoursSaved / max netHours 1
  { gross_fte := rnd1 grossFte
    gross_contacts := rnd0 totalDeflectable
    gross_seconds := 0
    gross_saving := rnd0 (grossFte * cost)
    eligible_volume := (queues.map (fun q => q.q.volume)).sum }

/-- `_gross_aht_reduction`.  Enriched queues always carry
`aht_decomp.reducible_sec`, so the `decomp.get` fallback
(`aht*60*0.35`) of the source is dead and not modelled. -/
def grossAhtReduction (queues : List EnrichedQueue) (cost netHours impact adoption totalVol : ℚ) :
    GrossResult :=
  let totalSecondsSaved :=
    (queues.map (fun q => q.q.volume * (q.aht_decomp.reducible_sec * impact * adoption))).sum
  let grossFte := totalSecondsSaved / 3600 / max netHours 1
  { gross_fte := rnd1 grossFte
    gross_contacts := 0
    gross_seconds := rnd0 totalSecondsSaved
    gross_saving := rnd0 (grossFte * cost)
    eligible_volume := totalVol }

/-- `_gross_escalation` (15 min of avoided handle time per prevented
escalation). -/
def grossEscalation (queues : List EnrichedQueue) (cost netHours impact adoption : ℚ) :
    GrossResult :=
  let totalPrevented :=
    (queues.map (fun q =>
      q.q.volume * q.q.escalation * max 0.10 (0.60 - q.q.complexity * 0.50) * impact * adoption)).sum
  let grossFte := totalPrevented * 900 / 3600 / max netHours 1
  { gross_fte := rnd1 grossFte
    gross_contacts := rnd0 totalPrevented
    gross_seconds := 0
    gross_saving := rnd0 (grossFte * cost)
    eligible_volume := (queues.map (fun q => q.q.volume)).sum }

/-- `_gross_transfer` (3 min per prevented transfer).  The source reads
`q.get('preventable_transfer_pct', max(0.15, 0.55 - complexity*0.40))`;
enriched queue records never carry a `preventable_transfer_pct` key
(enrichment stores the classification under `transfer_class`), so the
default expression is always taken and is embedded directly. -/
def grossTransfer (queues : List EnrichedQueue) (cost netHours impact adoption : ℚ) :
    GrossResult :=
  let totalPrevented :=
    (queues.map (fun q =>
      q.q.volume * q.q.transfer * max 0.15 (0.55 - q.q.complexity * 0.40) * impact * adoption)).sum
  let grossFte := totalPrevented * 180 / 3600 / max netHours 1
  { gross_fte := rnd1 grossFte
    gross_contacts := rnd0 totalPrevented
    gross_seconds := 0
    gross_saving := rnd0 (grossFte * cost)
    eligible_volume := (queues.map (fun q => q.q.volume)).sum }

/-- `_gross_repeat` (with the V6 sparse-repeat-data fallback). -/
def grossRepeat (queues : List EnrichedQueue) (cost netHours impact adoption : ℚ) :
    GrossResult :=
  let totalVol := (queues.map (fun q => q.q.volume)).sum
  let weightedRepeat :=
    if totalVol > 0 then (queues.map (fun q => q.q.repeatRate * q.q.volume)).sum / totalVol
    else 0
  let useFallback := weightedRepeat < 0.02
  let weightedFcr := (queues.map (fun q => q.q.fcr * q.q.volume)).sum / max totalVol 1
  let fallbackRepeat := max 0.05 ((1 - weightedFcr) * 0.60)
  let totalEliminated :=
    (queues.map (fun q =>
      let repeatRate := if useFallback then fallbackRepeat else q.q.repeatRate
      min (q.q.volume * repeatRate * impact * adoption) (q.q.volume * repeatRate * 0.70))).sum
  let grossFte := totalEliminated * grossAvgAhtSec queues / 3600 / max netHours 1
  { gross_fte := rnd1 grossFte
    gross_contacts := rnd0 totalEliminated
    gross_seconds := 0
    gross_saving := rnd0 (grossFte * cost)
    eligible_volume := totalVol }

/-- `_gross_location`: FTE migrated × cost arbitrage, **no** FTE
reduction (`gross_fte = 0`, `_is_location = True`). -/
def grossLocation (queues : List EnrichedQueue) (affectedFte cost impact adoption : ℚ)
    (params : Params) : GrossResult :=
  let totalVol := (queues.map (fun q => q.q.volume)).sum
  let migratableShare :=
    if totalVol > 0 then
      (queues.map (fun q => q.q.volume * q.migration_readiness)).sum / totalVol
    else 0
  let fteMigrated := affectedFte * migratableShare * impact * adoption
  let saving := fteMigrated * cost * params.locationArbitrage
  { gross_fte := 0
    gross_contacts := 0
    gross_seconds := 0
    gross_saving := rnd0 saving
    gross_fte_migrated := rnd1 fteMigrated
    eligible_volume := totalVol
    is_location := true }

/-- `_gross_shrinkage` -/
def grossShrinkage (affectedFte cost impact adoption : ℚ) (params : Params) : GrossResult :=
  let currentShrinkage := params.shrinkage
  let maxReduction := max 0 (currentShrinkage - params.targetShrinkage)
  let shrinkageReduction := min (currentShrinkage * impact * adoption) maxReduction
  let fteFreed := affectedFte * shrinkageReduction
  { gross_fte := rnd1 fteFreed
    gross_contacts := 0
    gross_seconds := 0
    gross_saving := rnd0 (fteFreed * cost)
    eligible_volume := 0 }

/-- `_gross_generic`: conservative fallback for unknown levers. -/
def grossGeneric (affectedFte cost impact adoption : ℚ) : GrossResult :=
  let rawFte := affectedFte * impact * adoption * 0.75
  { gross_fte := rnd1 rawFte
    gross_contacts := 0
    gross_seconds := 0
    gross_saving := rnd0 (rawFte * cost)
    eligible_volume := 0 }

/-- `compute_gross_impact`: channel matching, affected-role aggregates,
then dispatch on the lever (`pools_data` is accepted but, as in the
source formulas, never read). -/
def computeGrossImpact (init : InitInputs) (enrichedQueues : List EnrichedQueue)
    (roles : List Role) (params : Params) : GrossResult :=
  let impact := init.impact
  let adoption := init.adoption
  let queues := matchingQueues init.channels enrichedQueues
  let affectedFte := affectedFteOf init.roles roles
  let weightedCost := affectedCostOf init.roles roles
  let netProdHours := params.grossHoursPerYear * (1 - params.shrinkage)
  let totalMatchingVolume := (queues.map (fun q => q.q.volume)).sum
  if init.lever = "deflection" then
    grossDeflection queues weightedCost netProdHours impact adoption
  else if init.lever = "aht_reduction" then
    grossAhtReduction queues weightedCost netProdHours impact adoption totalMatchingVolume
  else if init.lever = "escalation_reduction" then
    grossEscalation queues weightedCost netProdHours impact adoption
  else if init.lever = "repeat_reduction" then
    grossRepeat queues weightedCost netProdHours impact adoption
  else if init.lever = "transfer_reduction" then
    grossTransfer queues weightedCost netProdHours impact adoption
  else if init.lever = "cost_reduction" then
    grossLocation queues affectedFte weightedCost impact adoption params
  else if init.lever = "shrinkage_reduction" then
    grossShrinkage affectedFte weightedCost impact adoption params
  else
    grossGeneric affectedFte weightedCost impact adoption

/-! ## Monthly benefit phasing (`_s_curve_ramp`, `_compute_yearly_factors`)

The logistic S-curve uses `math.exp`, so this part of the embedding
lives over `ℝ`. -/

/-- `_s_curve_ramp(months_since_golive, ramp_months)` -/
noncomputable def sCurveRamp (monthsSinceGolive rampMonths : ℝ) : ℝ :=
  if monthsSinceGolive ≤ 0 then 0
  else if rampMonths ≤ monthsSinceGolive then 1
  else
    let midpoint := rampMonths * 0.45
    let k := 6.0 / rampMonths
    let raw := 1 / (1 + Real.exp (-(k * (monthsSinceGolive - midpoint))))
    let floor := 1 / (1 + Real.exp (-(k * (0 - midpoint))))
    let ceiling := 1 / (1 + Real.exp (-(k * (rampMonths - midpoint))))
    let scaled := (raw - floor) / max (ceiling - floor) 0.001
    max 0 (min 1 scaled)

/-- `round(x, 4)` over `ℝ` (for the yearly factors). -/
noncomputable def rnd4R (x : ℝ) : ℝ := (round (x * 10 ^ 4) : ℤ) / 10 ^ 4

/-- `_compute_yearly_factors(start_month, end_month, horizon_years, ramp_months)` -/
noncomputable def computeYearlyFactors (startMonth endMonth horizonYears rampMonths : ℕ) :
    List ℝ :=
  let totalMonths := horizonYears * 12
  let endMonth' := if endMonth = 0 then totalMonths else min endMonth totalMonths
  (List.range horizonYears).map (fun yr =>
    let months := (List.range 12).map (fun j => yr * 12 + 1 + j)
    let active := months.filter (fun m => startMonth ≤ m ∧ m ≤ endMonth')
    let monthSum := (active.map (fun m =>
      sCurveRamp ((m : ℝ) - (startMonth : ℝ) + 1) (rampMonths : ℝ))).sum
    let activeMonths := active.length
    if 0 < activeMonths then
      rnd4R (monthSum / (activeMonths : ℝ) * (activeMonths : ℝ) / 12)
    else 0)

/-! ## Waterfall netting constants (`engines/waterfall.py`) -/

/-- `INITIATIVE_FTE_CAPS` (CR-014). -/
def INITIATIVE_FTE_CAPS : List (String × ℚ) :=
  [("deflection", 0.18), ("aht_reduction", 0.12), ("escalation_reduction", 0.10),
   ("repeat_reduction", 0.12), ("shrinkage_reduction", 0.10), ("cost_reduction", 0.15)]

/-- `INITIATIVE_FTE_CAPS.get(lever, 0.12)` -/
def initiativeFteCapOf (lever : String) : ℚ :=
  (((List.find? (fun e => e.1 = lever) INITIATIVE_FTE_CAPS).map (·.2))).getD 0.12

def ABSOLUTE_SINGLE_INIT_CAP : ℚ := 0.20

def PER_ROLE_MAX_REDUCTION : ℚ := 0.45

/-- `LEVER_ORDER` -/
def LEVER_ORDER : List String :=
  ["deflection", "aht_reduction", "repeat_reduction", "transfer_reduction",
   "escalation_reduction", "shrinkage_reduction", "cost_reduction"]

/-- `lever_order_map.get(lever, 9)` -/
def leverOrderIdx (lever : String) : ℕ :=
  ((LEVER_ORDER.indexOf? lever).map (·)).getD 9

/-- `layer_order.get(layer, 9)` -/
def layerOrderIdx (layer : String) : ℕ :=
  if layer = "AI & Automation" then 0
  else if layer = "Operating Model" then 1
  else if layer = "Location Strategy" then 2
  else 9

/-- Sort key of the cascade: `(layer order, lever order, -matchScore)`. -/
def initSortKey (i : InitInputs) : ℕ × ℕ × ℚ :=
  (layerOrderIdx i.layer, leverOrderIdx i.lever, -i.matchScore)

/-- Lexicographic comparison of sort keys (total preorder, so the
stable insertion sort reproduces Python's stable `sorted`). -/
def keyLE (a b : ℕ × ℕ × ℚ) : Prop :=
  a.1 < b.1 ∨ (a.1 = b.1 ∧ (a.2.1 < b.2.1 ∨ (a.2.1 = b.2.1 ∧ a.2.2 ≤ b.2.2)))

instance : DecidableRel keyLE := fun _ _ => by unfold keyLE; infer_instance

/-- Order on (original index, inputs) pairs used to sort the enabled
initiatives. -/
def initLE (a b : ℕ × InitInputs) : Prop := keyLE (initSortKey a.2) (initSortKey b.2)

instance : DecidableRel initLE := fun _ _ => by unfold initLE; infer_instance

/-! ## The waterfall cascade (steps 3–4 of `run_waterfall`)

State threaded through the cascade: the mutable pools dict and the
per-role cumulative allocation `role_cum`.  The (real-valued, ramp
dependent) `role_impact` yearly ledger never feeds back into the
cascade — `role_cum` alone drives the per-role cap — so it is modelled
as a separate pass further below. -/

/-- `role_cum` lookup. -/
def cumOf (m : List (String × ℚ)) (k : String) : ℚ :=
  (((List.find? (fun e => e.1 = k) m).map (·.2))).getD 0

/-- `role_cum[k] += d` (first matching entry, as for a Python dict). -/
def bumpCum : List (String × ℚ) → String → ℚ → List (String × ℚ)
  | [], _, _ => []
  | (k', v) :: rest, k, d =>
      if k' = k then (k', v + d) :: rest else (k', v) :: bumpCum rest k d

structure CascadeState where
  pools : PoolMap
  roleCum : List (String × ℚ)
  deriving Repr, DecidableEq

/-- Computable (ramp-free) part of the per-initiative result record. -/
structure CoreRes where
  fteImpact : ℚ
  annualSaving : ℚ
  effectiveImpact : ℚ
  poolConsumed : ℚ
  grossFTE : ℚ
  grossSaving : ℚ
  poolCapped : Bool
  capApplied : Bool
  startMonthR : ℕ
  endMonthR : ℕ
  rampCompleteMonthR : ℕ
  linkedQueues : ℕ
  red : ℚ        -- the pre-rounding reduction allocated to the ledger
  rawFte : ℚ
  isLocation : Bool
  deriving Repr, DecidableEq

/-- What one cascade iteration does to the initiative record: either
the `tot_aff == 0` early `init.update` or a full result record. -/
inductive CoreOut
  | noRoles
  | done (r : CoreRes)
  deriving Repr, DecidableEq

/-- `sum(1 for q in queues if q['channel'] in init['channels'])` -/
def linkedQueuesOf (channels : List String) (queues : List Queue) : ℕ :=
  (queues.filter (fun q => q.channel ∈ channels)).length

/-- One iteration of the `for init in sorted_inits` cascade loop
(`run_waterfall` step 4), returning the new state and the record
update for this initiative. -/
def cascadeStep (params : Params) (queues : List Queue)
    (annualQueues : List EnrichedQueue) (roles : List Role)
    (st : CascadeState) (init : InitInputs) : CascadeState × CoreOut :=
  let affected := affectedRoles init.roles roles
  let totAff := (affected.map (·.headcount)).sum
  if totAff = 0 then (st, CoreOut.noRoles)
  else
    let lever := init.lever
    -- 4a: gross impact (lever-specific physics)
    let gross := computeGrossImpact init annualQueues roles params
    let rawFte := gross.gross_fte
    let startM := max 1 init.startMonth
    let benefitEnd := init.benefitEndMonth
    let rampMonths := init.ramp
    let endMonthR := if benefitEnd > 0 then benefitEnd else params.horizon * 12
    let linked := linkedQueuesOf init.channels queues
    if gross.is_location then
      -- location initiatives: cost saving only, no FTE reduction
      let grossMigrated := gross.gross_fte_migrated
      let grossSaving := gross.gross_saving
      -- the source guards on `'cost_reduction' in pools`, a key
      -- `compute_pools` never creates (the pool key is `'location'`),
      -- so this consumption branch never fires on real pool dicts
      let step :=
        if (lookupPool st.pools "cost_reduction").isSome ∧ grossMigrated > 0 then
          let c := consumePool st.pools "cost_reduction" grossMigrated 0 0
          let consumedFte := c.2.consumed_fte
          let scaled :=
            if consumedFte < grossMigrated ∧ grossMigrated > 0 then
              (grossSaving * (consumedFte / grossMigrated), consumedFte)
            else (grossSaving, grossMigrated)
          (c.1, scaled.1, scaled.2, c.2.capped)
        else (st.pools, grossSaving, grossMigrated, false)
      let res : CoreRes :=
        { fteImpact := 0
          annualSaving := rnd0 step.2.1
          effectiveImpact := 0
          poolConsumed := rnd1 step.2.2.1
          grossFTE := 0
          grossSaving := gross.gross_saving
          poolCapped := step.2.2.2
          capApplied := step.2.2.2
          startMonthR := startM
          endMonthR := endMonthR
          rampCompleteMonthR := startM + rampMonths
          linkedQueues := linked
          red := 0
          rawFte := rawFte
          isLocation := true }
      ({ st with pools := step.1 }, CoreOut.done res)
    else
      -- 4b: net against remaining pool
      let c := consumePool st.pools lever rawFte gross.gross_contacts gross.gross_seconds
      let pools' := c.1
      let netFte := c.2.consumed_fte
      let poolCapped := c.2.capped
      -- 4c: safety caps
      let typeCap := initiativeFteCapOf lever * totAff
      let absCap := ABSOLUTE_SINGLE_INIT_CAP * totAff
      let red := min netFte (min typeCap absCap)
      let avail :=
        (affected.map (fun r =>
          max 0 (r.headcount * PER_ROLE_MAX_REDUCTION - cumOf st.roleCum r.role))).sum
      let red := min red avail
      let red := max 0 red
      let roleCum' :=
        affected.foldl (fun m r => bumpCum m r.role (red * (r.headcount / totAff))) st.roleCum
      let wtd := (affected.map (fun r => r.headcount * r.costPerFTE)).sum / max totAff 1
      let res : CoreRes :=
        { fteImpact := rnd1 red
          annualSaving := rnd0 (red * wtd)
          effectiveImpact := rnd4 (red / max totAff 1)
          poolConsumed := rnd1 red
          grossFTE := rnd1 rawFte
          grossSaving := rnd0 (rawFte * wtd)
          poolCapped := poolCapped
          capApplied := red < rawFte * 0.95
          startMonthR := startM
          endMonthR := endMonthR
          rampCompleteMonthR := startM + rampMonths
          linkedQueues := linked
          red := red
          rawFte := rawFte
          isLocation := false }
      ({ pools := pools', roleCum := roleCum' }, CoreOut.done res)

/-- Steps 1–2b of `run_waterfall`: enrichment, pools, and the
annualized queue copies used for gross impact (CR-021). -/
def waterfallPrelude (params : Params) (queues : List Queue) (roles : List Role) :
    List EnrichedQueue × PoolResult :=
  let enriched := enrichIntents queues
  let poolResult := computePools enriched roles params
  let annualization := poolResult.annualization_factor
  let annualQueues := enriched.map (fun eq =>
    { eq with q := { eq.q with volume := rnd0 (eq.q.volume * annualization) } })
  (annualQueues, poolResult)

/-- Step 3 of `run_waterfall`: the enabled initiatives (tagged with
their original list position) in cascade order. -/
def sortedEnabled (inps : List InitInputs) : List (ℕ × InitInputs) :=
  List.insertionSort initLE (inps.enum.filter (fun ji => ji.2.enabled))

/-- Initial `role_cum` (all zeros). -/
def initRoleCum (roles : List Role) : List (String × ℚ) :=
  roles.map (fun r => (r.role, 0))

/-- Step 4 of `run_waterfall`: fold the cascade over the sorted enabled
initiatives, collecting each initiative's record update keyed by its
original position. -/
def runCascade (params : Params) (queues : List Queue) (roles : List Role)
    (inps : List InitInputs) : CascadeState × List (ℕ × CoreOut) :=
  let pre := waterfallPrelude params queues roles
  let st0 : CascadeState := { pools := pre.2.pools, roleCum := initRoleCum roles }
  (sortedEnabled inps).foldl
    (fun acc ji =>
      let step := cascadeStep params queues pre.1 roles acc.1 ji.2
      (step.1, acc.2 ++ [(ji.1, step.2)]))
    (st0, [])

/-- The per-initiative record updates of a cascade run. -/
def cascadeOuts (params : Params) (queues : List Queue) (roles : List Role)
    (inps : List InitInputs) : List (ℕ × CoreOut) :=
  (runCascade params queues roles inps).2

/-- The `init.update({...})` applied when an initiative has no affected
roles (`tot_aff == 0`): only the listed keys are overwritten. -/
def noRolesPatch (r : InitResults) : InitResults :=
  { r with
    fteImpact := 0
    annualSaving := 0
    effectiveImpact := 0
    contributionPct := 0
    poolConsumed := 0
    poolCapped := false }

/-- Assemble the full result record for a processed initiative,
attaching the ramp-phased yearly factors (`_rampPcts`,
`_yearlyFactors` are both set to `yearly_factors[:horizon]`). -/
noncomputable def buildRes (horizon : ℕ) (inp : InitInputs) (c : CoreRes) : InitResults :=
  let factors := (computeYearlyFactors (max 1 inp.startMonth) inp.benefitEndMonth
      horizon inp.ramp).take horizon
  { fteImpact := c.fteImpact
    annualSaving := c.annualSaving
    effectiveImpact := c.effectiveImpact
    contributionPct := 0
    poolConsumed := c.poolConsumed
    grossFTE := c.grossFTE
    grossSaving := c.grossSaving
    poolCapped := c.poolCapped
    capApplied := c.capApplied
    startMonthR := c.startMonthR
    endMonthR := c.endMonthR
    rampCompleteMonth := c.rampCompleteMonthR
    linkedQueues := c.linkedQueues
    rampPcts := factors
    yearlyFactors := factors }

/-- Record update for the initiative at original position `j`. -/
noncomputable def midOne (horizon : ℕ) (outs : List (ℕ × CoreOut)) (j : ℕ)
    (inp : InitInputs) (old : InitResults) : InitResults :=
  if inp.enabled then
    match (List.find? (fun e => e.1 = j) outs).map (·.2) with
    | some CoreOut.noRoles => noRolesPatch old
    | some (CoreOut.done c) => buildRes horizon inp c
    | none => old
  else old

/-- All record updates of one run, positionally. -/
noncomputable def midResults (params : Params) (queues : List Queue) (roles : List Role)
    (inps : List InitInputs) (oldRes : List InitResults) : List InitResults :=
  let outs := cascadeOuts params queues roles inps
  List.zipWith (fun (ji : ℕ × InitInputs) old => midOne params.horizon outs ji.1 ji.2 old)
    inps.enum oldRes

/-- `_contributionPct` of one initiative given the total. -/
def contributionPctOf (totIsav s : ℚ) : ℚ :=
  if totIsav > 0 then min 100 (max 0 (roundTo 1 (s / max totIsav 1 * 100))) else 0

/-- `tot_isav = sum(s for i in enabled if s > 0)`. -/
def totIsavOf (inps : List InitInputs) (mid : List InitResults) : ℚ :=
  (List.zipWith (fun (i : InitInputs) (r : InitResults) =>
    if i.enabled ∧ r.annualSaving > 0 then r.annualSaving else 0) inps mid).sum

/-- The safe-contribution-percent pass (lines 688–694). -/
def pctPass (inps : List InitInputs) (mid : List InitResults) : List InitResults :=
  let totIsav := totIsavOf inps mid
  List.zipWith (fun (i : InitInputs) (r : InitResults) =>
    if i.enabled then { r with contributionPct := contributionPctOf totIsav r.annualSaving }
    else { r with contributionPct := 0 }) inps mid

/-- The result records of all initiatives after one `run_waterfall`
invocation (given their records before it). -/
noncomputable def resultsAfter (params : Params) (queues : List Queue) (roles : List Role)
    (inps : List InitInputs) (oldRes : List InitResults) : List InitResults :=
  pctPass inps (midResults params queues roles inps oldRes)

/-- The initiative list as mutated in place by one `run_waterfall`
invocation: inputs kept, result annotations rewritten. -/
noncomputable def annotateInits (params : Params) (queues : List Queue) (roles : List Role)
    (inits : List Initiative) : List Initiative :=
  List.zipWith Initiative.mk (inits.map (·.inputs))
    (resultsAfter params queues roles (inits.map (·.inputs)) (inits.map (·.res)))

/-- State of the base initiative list after `_run_sensitivity`: the
five parameter perturbations (±20 % of `volumeGrowth`,
`wageInflation`, `discountRate`, `attritionMonthly`,
`redeploymentPct`) each re-invoke `run_waterfall` on the *base*
initiative list; the `_adoption` variable runs on deep copies and is
therefore absent from the chain. -/
noncomputable def sensChainInits (p : Params) (queues : List Queue) (roles : List Role)
    (inits : List Initiative) : List Initiative :=
  let s := annotateInits { p with volumeGrowth := p.volumeGrowth * 0.8 } queues roles inits
  let s := annotateInits { p with volumeGrowth := p.volumeGrowth * 1.2 } queues roles s
  let s := annotateInits { p with wageInflation := p.wageInflation * 0.8 } queues roles s
  let s := annotateInits { p with wageInflation := p.wageInflation * 1.2 } queues roles s
  let s := annotateInits { p with discountRate := p.discountRate * 0.8 } queues roles s
  let s := annotateInits { p with discountRate := p.discountRate * 1.2 } queues roles s
  let s := annotateInits { p with attritionMonthly := p.attritionMonthly * 0.8 } queues roles s
  let s := annotateInits { p with attritionMonthly := p.attritionMonthly * 1.2 } queues roles s
  let s := annotateInits { p with redeploymentPct := p.redeploymentPct * 0.8 } queues roles s
  let s := annotateInits { p with redeploymentPct := p.redeploymentPct * 1.2 } queues roles s
  s

/-! ### Per-role yearly ledger (`role_impact`)

`role_impact[role]['yearly'][yr] += red * factor * (headcount/tot_aff)`
runs inside the cascade loop but never feeds back into it (the per-role
cap reads `role_cum` only), so it is modelled as a pass over the
cascade outputs, in processing order.  Entries are
`(role, baseline, yearly)`. -/

/-- `role_impact[k]['yearly'] += add` (pointwise). -/
def bumpLedger : List (String × ℚ × List ℝ) → String → List ℝ → List (String × ℚ × List ℝ)
  | [], _, _ => []
  | (k', b, ys) :: rest, k, add =>
      if k' = k then (k', b, List.zipWith (· + ·) ys add) :: rest
      else (k', b, ys) :: bumpLedger rest k add

/-- Ledger contribution of one processed initiative. -/
noncomputable def ledgerStep (horizon : ℕ) (roles : List Role)
    (acc : List (String × ℚ × List ℝ)) (item : InitInputs × CoreOut) :
    List (String × ℚ × List ℝ) :=
  match item.2 with
  | CoreOut.noRoles => acc
  | CoreOut.done c =>
      if c.isLocation then acc
      else
        let affected := affectedRoles item.1.roles roles
        let totAff := (affected.map (·.headcount)).sum
        let factors := computeYearlyFactors (max 1 item.1.startMonth)
          item.1.benefitEndMonth horizon item.1.ramp
        affected.foldl (fun m r =>
          bumpLedger m r.role
            (factors.map (fun f => (c.red : ℝ) * f * ((r.headcount / totAff : ℚ) : ℝ)))) acc

/-- The full `role_impact` ledger of a run, before clamping. -/
noncomputable def roleImpactLedger (params : Params) (queues : List Queue) (roles : List Role)
    (inps : List InitInputs) : List (String × ℚ × List ℝ) :=
  let outs := runCascade params queues roles inps
  let items := List.zip ((sortedEnabled inps).map (·.2)) (outs.2.map (·.2))
  items.foldl (ledgerStep params.horizon roles)
    (roles.map (fun r => (r.role, r.headcount, List.replicate params.horizon (0 : ℝ))))

/-- The final per-role clamp (lines 639–641):
`yearly = [min(v, baseline * 0.45) for v in yearly]`. -/
noncomputable def clampLedger (ledger : List (String × ℚ × List ℝ)) :
    List (String × ℚ × List ℝ) :=
  ledger.map (fun e =>
    (e.1, e.2.1, e.2.2.map (fun v => min v ((e.2.1 * PER_ROLE_MAX_REDUCTION : ℚ) : ℝ))))

/-! ## IRR estimation (`_estimate_irr`) -/

/-- `npv = sum(cf/(1+rate)**t)` -/
def irrNpv (cashflows : List ℚ) (rate : ℚ) : ℚ :=
  (cashflows.enum.map (fun tc => tc.2 / (1 + rate) ^ tc.1)).sum

/-- `dnpv = sum(-t*cf/(1+rate)**(t+1))` -/
def irrDnpv (cashflows : List ℚ) (rate : ℚ) : ℚ :=
  (cashflows.enum.map (fun tc => -(tc.1 : ℚ) * tc.2 / (1 + rate) ^ (tc.1 + 1))).sum

/-- The damped Newton–Raphson loop of `_estimate_irr` (`max_iter`
becomes explicit fuel; both `break`s of the source are the early
returns here). -/
def irrLoop (cashflows : List ℚ) : ℕ → ℚ → ℚ
  | 0, rate => rate
  | fuel + 1, rate =>
      let npv := irrNpv cashflows rate
      let dnpv := irrDnpv cashflows rate
      if |dnpv| < 1 / 10 ^ 10 then rate
      else
        let rate' := max (-0.5) (min 10 (rate - npv / dnpv))
        if |npv| < 1 then rate'
        else irrLoop cashflows fuel rate'

/-- `_estimate_irr(cashflows, guess, max_iter)`; the waterfall calls it
with the defaults `guess=0.10`, `max_iter=100`. -/
def estimateIrr (cashflows : List ℚ) (guess : ℚ) (maxIter : ℕ) : ℚ :=
  if cashflows = [] ∨ cashflows.all (· = 0) then 0
  else rnd1 (irrLoop cashflows maxIter guess * 100)

/-! ## Spec-side comparator for the transfer gross formula (claim C6)

`specTransferGrossContacts` is written from the claim's words — the
preventable transfer volume *as classified by enrichment*
(`transfer_class.preventable_rate`, i.e. the complexity-tier share
with the ×0.70 escalation adjustment) × impact × adoption — to be
compared against the embedded `grossTransfer`. -/

def specTransferGrossContacts (queues : List EnrichedQueue) (impact adoption : ℚ) : ℚ :=
  (queues.map (fun q => q.q.volume * q.transfer_class.preventable_rate * impact * adoption)).sum

/-- The claim's transfer gross FTE: preventable classified volume at
180 s extra handling each, converted to hours and then FTE. -/
def specTransferGrossFte (queues : List EnrichedQueue) (impact adoption netHours : ℚ) : ℚ :=
  specTransferGrossContacts queues impact adoption * 180 / 3600 / netHours

/-! # Helper lemmas -/

/-- `x` is an integer multiple of `1/10` — the granularity of every
`round(·, 1)` value.  All FTE amounts that reach `consume_pool` in a
run are of this shape (they are `round(·, 1)` outputs). -/
def Mult10 (x : ℚ) : Prop := ∃ n : ℤ, x = (n : ℚ) / 10

theorem mult10_rnd1 (x : ℚ) : Mult10 (rnd1 x) :=
  ⟨round (x * 10), by simp [rnd1, roundTo]⟩

theorem mult10_zero : Mult10 0 := ⟨0, by norm_num⟩

theorem mult10_sub {x y : ℚ} (hx : Mult10 x) (hy : Mult10 y) : Mult10 (x - y) := by
  obtain ⟨n, rfl⟩ := hx
  obtain ⟨m, rfl⟩ := hy
  exact ⟨n - m, by rw [Int.cast_sub]; ring⟩

theorem mult10_min {x y : ℚ} (hx : Mult10 x) (hy : Mult10 y) : Mult10 (min x y) := by
  rcases le_total x y with h | h
  · rwa [min_eq_left h]
  · rwa [min_eq_right h]

theorem rnd1_eq_self {x : ℚ} (h : Mult10 x) : rnd1 x = x := by
  obtain ⟨n, rfl⟩ := h
  have h10 : ((n : ℚ) / 10) * 10 ^ 1 = (n : ℚ) := by ring
  simp only [rnd1, roundTo, h10, round_intCast]
  norm_num

theorem roundRat_mono {x y : ℚ} (h : x ≤ y) : round x ≤ round y := by
  rw [round_eq, round_eq]
  exact Int.floor_le_floor (by linarith)

theorem rnd1_mono {x y : ℚ} (h : x ≤ y) : rnd1 x ≤ rnd1 y := by
  have hr : round (x * 10 ^ 1) ≤ round (y * 10 ^ 1) := roundRat_mono (by nlinarith)
  simp only [rnd1, roundTo]
  exact div_le_div_of_nonneg_right (by exact_mod_cast hr) (by norm_num)

theorem rnd1_nonneg {x : ℚ} (h : 0 ≤ x) : 0 ≤ rnd1 x := by
  have h0 : round ((0 : ℚ) * 10 ^ 1) ≤ round (x * 10 ^ 1) := roundRat_mono (by nlinarith)
  simp only [zero_mul, round_zero] at h0
  simp only [rnd1, roundTo]
  have : (0 : ℚ) ≤ (round (x * 10 ^ 1) : ℚ) := by exact_mod_cast h0
  positivity

/-! # Concrete fixtures used by witnesses and counterexamples -/

/-- Default parameter set (the source defaults of `params.get`). -/
def baseParams : Params :=
  { horizon := 3
    discountRate := 0.10
    wageInflation := 0.03
    shrinkage := 0.30
    targetShrinkage := 0.22
    grossHoursPerYear := 2080
    volumeAnnualizationFactor := 1
    locationArbitrage := 0.35
    redeploymentPct := 0.50
    attritionMonthly := 0.02
    volumeGrowth := 0 }

/-- A plain low-complexity voice queue (blank intent name: no keyword
override fires). -/
def voiceQueue : Queue :=
  { intent := ""
    channel := "Voice"
    volume := 1000
    aht := 6
    acw := 1
    complexity := 0.2
    transfer := 0.1
    escalation := 0
    repeatRate := 0
    fcr := 0.8 }

def agentRole : Role := { role := "Agent L1", headcount := 100, costPerFTE := 55000 }

/-- Pools computed from the single-queue fixture — a pools dict
actually reachable in a run. -/
def fixturePools : PoolMap :=
  (computePools (enrichIntents [voiceQueue]) [agentRole] baseParams).pools

/-! # Claim C5 — unknown levers fail closed

The seven recognized levers are the keys of `lever_pool_map`.  The
claim fails: `lever_pool_map.get(lever, lever)` falls back to the lever
string itself as the pool key, and the pools dict has keys
(`'location'`) that are not recognized levers — `consume_pool` with the
unrecognized lever string `'location'` therefore consumes from the
location pool, returns a nonzero `consumed_fte`, mutates the pool and
records no warning. -/

/-- The seven recognized levers (keys of `lever_pool_map`). -/
def recognizedLevers : List String := leverPoolMap.map (·.1)

theorem poolKeyOf_not_recognized {lever : String} (h : lever ∉ recognizedLevers) :
    poolKeyOf lever = lever := by
  have hf : List.find? (fun e => e.1 = lever) leverPoolMap = none := by
    apply List.find?_eq_none.mpr
    intro x hx
    simp only [decide_eq_true_eq]
    intro hx1
    exact h (by simpa [recognizedLevers, hx1] using List.mem_map_of_mem (·.1) hx)
  simp [poolKeyOf, hf]


def fixturePoolsLit : PoolMap :=
  [("deflection",
    { ceiling_fte := 0, remaining_fte := 0, ceiling_saving := 2550, unit := "contacts",
      ceiling_contacts := some 675, remaining_contacts := some 675,
      ceiling_pct := some 0.6752 }),
   ("aht_reduction",
    { ceiling_fte := 0, remaining_fte := 0, ceiling_saving := 1816, unit := "seconds",
      ceiling_seconds := some 173100, remaining_seconds := some 173100,
      ceiling_hours := some 48.1 }),
   ("transfer_reduction",
    { ceiling_fte := 0, remaining_fte := 0, ceiling_saving := 142, unit := "transfers",
      ceiling_contacts := some 75, remaining_contacts := some 75 }),
   ("escalation_reduction",
    { ceiling_fte := 0, remaining_fte := 0, ceiling_saving := 0, unit := "escalations",
      ceiling_contacts := some 0, remaining_contacts := some 0 }),
   ("repeat_reduction",
    { ceiling_fte := 0, remaining_fte := 0, ceiling_saving := 264, unit := "contacts",
      ceiling_contacts := some 70, remaining_contacts := some 70 }),
   ("location",
    { ceiling_fte := 68.5, remaining_fte := 68.5, ceiling_saving := 1318625, unit := "fte",
      remaining_saving := some 1318625, migratable_share := some 0.685,
      cost_arbitrage := some 0.35 }),
   ("shrinkage_reduction",
    { ceiling_fte := 8, remaining_fte := 8, ceiling_saving := 440000, unit := "fte",
      remaining_saving := some 440000, current_shrinkage := some 0.3,
      target_shrinkage := some 0.22, gap := some 0.08 })]

/-- The location pool of the fixture. -/
def fixtureLocPool : Pool :=
  { ceiling_fte := 68.5, remaining_fte := 68.5, ceiling_saving := 1318625, unit := "fte",
    remaining_saving := some 1318625, migratable_share := some 0.685,
    cost_arbitrage := some 0.35 }

theorem fixturePools_eq : fixturePools = fixturePoolsLit := by
  norm_num [fixturePools, fixturePoolsLit, computePools, enrichIntents, enrichQueue,
    voiceQueue, agentRole, baseParams, repeatabilityFromComplexity,
    emotionalRiskFromComplexity, authRequiredFromComplexity, containmentFeasibility,
    decomposeAht, transferClassification, migrationReadiness, digitalChannels,
    highEmotionKeywords, midEmotionKeywords, noAuthKeywords, highAuthKeywords,
    strHas, lowerStr, hasSub, leadMatch, mkContactPool, totalFteOf, netProdHoursOf,
    totalVolumeOf, annQueuesOf, weightedCostOf, deflectableContactsOf, avgAhtSecOf,
    reducibleSecondsOf, preventableTransfersOf, preventableEscalationsOf,
    weightedRepeatOf, weightedFcrOf, repeatContactsOf, migratableShareOf,
    migratableFteOf, migratableRoles, rnd1, rnd0, rnd3, rnd4, roundTo, round_eq]
  simp
  norm_num

/-- The claim as stated is false at the lever string `"location"`,
which is not one of the seven recognized levers yet consumes 1.0 FTE
from the location pool of a `compute_pools` output (remaining 68.5 →
67.5), mutating it and raising no warning flag. -/
theorem claim_C5_counterexample :
    "location" ∉ recognizedLevers
    ∧ (consumePool fixturePools "location" 1 0 0).2.consumed_fte = 1
    ∧ (consumePool fixturePools "location" 1 0 0).2.unknown_lever = false
    ∧ (lookupPool (consumePool fixturePools "location" 1 0 0).1 "location").map
        (·.remaining_fte) = some 67.5
    ∧ (lookupPool fixturePools "location").map (·.remaining_fte) = some 68.5 := by
  have hk : poolKeyOf "location" = "location" := rfl
  have hl : lookupPool fixturePoolsLit "location" = some fixtureLocPool := rfl
  have hs : (consumePool fixturePoolsLit "location" 1 0 0).1
      = setPool fixturePoolsLit "location"
        { fixtureLocPool with remaining_fte := 67.5, remaining_saving := some 1299375 } := by
    simp only [consumePool, hk, hl, fixtureLocPool, consumeSideUnits]
    norm_num [rnd1, rnd0, roundTo, round_eq]
  refine ⟨by decide, ?_, ?_, ?_, by rw [fixturePools_eq]; rfl⟩ <;>
    rw [fixturePools_eq]
  · simp only [consumePool, hk, hl, fixtureLocPool, consumeSideUnits]
    norm_num [rnd1, rnd0, roundTo, round_eq]
  · simp only [consumePool, hk, hl, fixtureLocPool, consumeSideUnits]
    norm_num [rnd1, rnd0, roundTo, round_eq]
  · rw [hs, lookupPool_setPool_self _ _ _ (by rw [hl]; rfl)]
    rfl

/-- Amended claim: a lever string that is neither one of the seven
recognized levers **nor itself a key of the pools dict** fails closed —
`consumed_fte = 0`, the unknown-lever warning is recorded, no
exception (the function is total), and every pool is unchanged. -/
theorem claim_C5 (pools : PoolMap) (lever : String) (aF aC aS : ℚ)
    (h1 : lever ∉ recognizedLevers) (h2 : lookupPool pools lever = none) :
    (consumePool pools lever aF aC aS).1 = pools
    ∧ (consumePool pools lever aF aC aS).2.consumed_fte = 0
    ∧ (consumePool pools lever aF aC aS).2.unknown_lever = true := by
  have hk : poolKeyOf lever = lever := poolKeyOf_not_recognized h1
  simp [consumePool, hk, h2]

theorem claim_C5_witness :
    ("totally-new-lever" ∉ recognizedLevers
      ∧ lookupPool fixturePools "totally-new-lever" = none)
    ∧ ((consumePool fixturePools "totally-new-lever" 5 0 0).1 = fixturePools
      ∧ (consumePool fixturePools "totally-new-lever" 5 0 0).2.consumed_fte = 0
      ∧ (consumePool fixturePools "totally-new-lever" 5 0 0).2.unknown_lever = true) :=
  ⟨⟨by decide, by decide⟩,
   claim_C5 fixturePools "totally-new-lever" 5 0 0 (by decide) (by decide)⟩

/-! # Claim C2 — pool invariants

`0 ≤ remaining_fte ≤ ceiling_fte`, `remaining_fte` never increases,
and the net FTE consumed on one lever over a whole run is at most the
lever's ceiling.  Every FTE amount passed to `consume_pool` by the
waterfall is a `round(·, 1)` output, hence a multiple of 1/10
(`Mult10`); on such amounts the rounding inside `consume_pool` is
exact and the ceiling bound holds exactly. -/

/-- Invariant of one pool: `0 ≤ remaining ≤ ceiling`, with `remaining`
on the 1/10 grid. -/
def PoolInv (p : Pool) : Prop :=
  0 ≤ p.remaining_fte ∧ p.remaining_fte ≤ p.ceiling_fte ∧ Mult10 p.remaining_fte

/-- A sequence of `consume_pool` calls (lever, FTE amount), returning
the final pools dict and each call's `consumed_fte`. -/
def runConsumes : PoolMap → List (String × ℚ) → PoolMap × List (String × ℚ)
  | pools, [] => (pools, [])
  | pools, (lv, a) :: rest =>
      let c := consumePool pools lv a 0 0
      let r := runConsumes c.1 rest
      (r.1, (lv, c.2.consumed_fte) :: r.2)

/-- Total `consumed_fte` of the calls whose lever maps to pool `k`. -/
def consumedOn (k : String) (l : List (String × ℚ)) : ℚ :=
  ((l.filter (fun e => poolKeyOf e.1 = k)).map (·.2)).sum

theorem consumeSideUnits_remaining_fte (pool : Pool) (a b c d : ℚ) :
    (consumeSideUnits pool a b c d).remaining_fte = pool.remaining_fte := by
  unfold consumeSideUnits
  dsimp only
  split_ifs <;> split <;> rfl

theorem consumeSideUnits_ceiling_fte (pool : Pool) (a b c d : ℚ) :
    (consumeSideUnits pool a b c d).ceiling_fte = pool.ceiling_fte := by
  unfold consumeSideUnits
  dsimp only
  split_ifs <;> split <;> rfl

/-- Effect of one `consume_pool` call on any pool `k` of the dict. -/
theorem consumePool_preserves (m : PoolMap) (lever : String) (aF aC aS : ℚ)
    (haF : 0 ≤ aF) (hmF : Mult10 aF) (k : String) (p : Pool)
    (hk : lookupPool m k = some p) (hp : PoolInv p) :
    ∃ p', lookupPool (consumePool m lever aF aC aS).1 k = some p'
      ∧ PoolInv p'
      ∧ p'.remaining_fte ≤ p.remaining_fte
      ∧ p'.ceiling_fte = p.ceiling_fte
      ∧ (poolKeyOf lever = k →
          (consumePool m lever aF aC aS).2.consumed_fte
            = p.remaining_fte - p'.remaining_fte)
      ∧ (poolKeyOf lever ≠ k → p' = p) := by
  obtain ⟨hp0, hpc, hpm⟩ := hp
  unfold consumePool
  dsimp only
  cases hpk : lookupPool m (poolKeyOf lever) with
  | none =>
      refine ⟨p, hk, ⟨hp0, hpc, hpm⟩, le_refl _, rfl, ?_, fun _ => rfl⟩
      intro hkey
      rw [hkey, hk] at hpk
      exact absurd hpk (by simp)
  | some pool =>
      dsimp only
      by_cases hrem : pool.remaining_fte ≤ 0
      · rw [if_pos hrem]
        refine ⟨p, hk, ⟨hp0, hpc, hpm⟩, le_refl _, rfl, ?_, fun _ => rfl⟩
        intro _
        simp
      · rw [if_neg hrem]
        by_cases hkey : poolKeyOf lever = k
        · subst hkey
          rw [hk] at hpk
          injection hpk with hpp
          subst hpp
          have hact : Mult10 (min aF p.remaining_fte) := mult10_min hmF hpm
          have hdiff : Mult10 (p.remaining_fte - min aF p.remaining_fte) :=
            mult10_sub hpm hact
          have hrnd : rnd1 (p.remaining_fte - min aF p.remaining_fte)
              = p.remaining_fte - min aF p.remaining_fte := rnd1_eq_self hdiff
          have hlook := lookupPool_setPool_self m (poolKeyOf lever)
            (consumeSideUnits
              { p with remaining_fte := rnd1 (p.remaining_fte - min aF p.remaining_fte) }
              (min aF p.remaining_fte)
              (min aF p.remaining_fte / max aF 0.001) aC aS)
            (by rw [hk]; rfl)
          refine ⟨_, hlook, ?_, ?_, ?_, ?_, fun hne => absurd rfl hne⟩
          · refine ⟨?_, ?_, ?_⟩
            · rw [consumeSideUnits_remaining_fte]
              simp only [hrnd]
              have : min aF p.remaining_fte ≤ p.remaining_fte := min_le_right _ _
              linarith
            · rw [consumeSideUnits_remaining_fte, consumeSideUnits_ceiling_fte]
              simp only [hrnd]
              have : 0 ≤ min aF p.remaining_fte := le_min haF (le_of_not_le hrem)
              linarith
            · rw [consumeSideUnits_remaining_fte]
              simp only [hrnd]
              exact hdiff
          · rw [consumeSideUnits_remaining_fte]
            simp only [hrnd]
            have : 0 ≤ min aF p.remaining_fte := le_min haF (le_of_not_le hrem)
            linarith
          · rw [consumeSideUnits_ceiling_fte]
          · intro _
            rw [consumeSideUnits_remaining_fte]
            simp only [hrnd]
            rw [rnd1_eq_self hact]
            ring
        · have hlook := lookupPool_setPool_ne m k (poolKeyOf lever)
            (consumeSideUnits
              { pool with remaining_fte := rnd1 (pool.remaining_fte - min aF pool.remaining_fte) }
              (min aF pool.remaining_fte)
              (min aF pool.remaining_fte / max aF 0.001) aC aS)
            (fun h => hkey h.symm)
          refine ⟨p, ?_, ⟨hp0, hpc, hpm⟩, le_refl _, rfl,
            fun h => absurd h hkey, fun _ => rfl⟩
          rw [hlook]
          exact hk

theorem consumedOn_cons (k lv : String) (c : ℚ) (rest : List (String × ℚ)) :
    consumedOn k ((lv, c) :: rest)
      = (if poolKeyOf lv = k then c else 0) + consumedOn k rest := by
  by_cases h : poolKeyOf lv = k <;> simp [consumedOn, List.filter, h]

/-- Whole-run effect of a `consume_pool` call sequence on pool `k`:
the invariant is preserved and the consumed total telescopes. -/
theorem runConsumes_spec (reqs : List (String × ℚ)) :
    ∀ (m : PoolMap) (k : String) (p : Pool),
      (∀ e ∈ reqs, 0 ≤ e.2 ∧ Mult10 e.2) →
      lookupPool m k = some p → PoolInv p →
      ∃ p', lookupPool (runConsumes m reqs).1 k = some p'
        ∧ PoolInv p'
        ∧ p'.remaining_fte ≤ p.remaining_fte
        ∧ p'.ceiling_fte = p.ceiling_fte
        ∧ consumedOn k (runConsumes m reqs).2
            = p.remaining_fte - p'.remaining_fte := by
  induction reqs with
  | nil =>
      intro m k p _ hk hp
      exact ⟨p, hk, hp, le_refl _, rfl, by simp [runConsumes, consumedOn]⟩
  | cons e rest ih =>
      intro m k p hv hk hp
      obtain ⟨lv, a⟩ := e
      have ha := hv (lv, a) (List.mem_cons_self _ _)
      obtain ⟨p1, h1look, h1inv, h1le, h1ceil, h1cons, h1other⟩ :=
        consumePool_preserves m lv a 0 0 ha.1 ha.2 k p hk hp
      obtain ⟨p', h2look, h2inv, h2le, h2ceil, h2sum⟩ :=
        ih (consumePool m lv a 0 0).1 k p1
          (fun e he => hv e (List.mem_cons_of_mem _ he)) h1look h1inv
      refine ⟨p', ?_, h2inv, le_trans h2le h1le, h2ceil.trans h1ceil, ?_⟩
      · simp only [runConsumes]
        exact h2look
      · simp only [runConsumes]
        rw [consumedOn_cons, h2sum]
        by_cases hkey : poolKeyOf lv = k
        · rw [if_pos hkey, h1cons hkey]
          ring
        · rw [if_neg hkey, h1other hkey]
          ring

/-- Claim C2.  (a) `compute_pools` starts every pool with
`remaining_fte = ceiling_fte` on the 1/10 grid; (b) every single
`consume_pool` call keeps `0 ≤ remaining_fte ≤ ceiling_fte` and never
increases `remaining_fte`; (c) over any sequence of consume calls with
nonnegative `round(·,1)`-shaped FTE amounts (which is what the
waterfall passes), the total FTE consumed on one lever is at most that
lever's pool ceiling. -/
theorem claim_C2 (m : PoolMap) (k : String) (p : Pool)
    (hk : lookupPool m k = some p) (hp : PoolInv p) :
    (∀ eqs rs ps k' p', lookupPool (computePools eqs rs ps).pools k' = some p' →
        p'.remaining_fte = p'.ceiling_fte ∧ Mult10 p'.remaining_fte)
    ∧ (∀ lever aF aC aS, 0 ≤ aF → Mult10 aF →
        ∃ p', lookupPool (consumePool m lever aF aC aS).1 k = some p'
          ∧ 0 ≤ p'.remaining_fte
          ∧ p'.remaining_fte ≤ p.remaining_fte
          ∧ p'.ceiling_fte = p.ceiling_fte
          ∧ p'.remaining_fte ≤ p'.ceiling_fte)
    ∧ (∀ reqs, (∀ e ∈ reqs, 0 ≤ e.2 ∧ Mult10 e.2) →
        consumedOn k (runConsumes m reqs).2 ≤ p.ceiling_fte) := by
  refine ⟨?_, ?_, ?_⟩
  · intro eqs rs ps k' p' h
    simp only [computePools, mkContactPool, lookupPool_cons] at h
    split_ifs at h <;>
      first
        | (injection h with h'; subst h'; exact ⟨rfl, mult10_rnd1 _⟩)
        | simp [lookupPool] at h
  · intro lever aF aC aS haF hmF
    obtain ⟨p', hlook, hinv, hle, hceil, _, _⟩ :=
      consumePool_preserves m lever aF aC aS haF hmF k p hk hp
    exact ⟨p', hlook, hinv.1, hle, hceil, hinv.2.1⟩
  · intro reqs hv
    obtain ⟨p', _, hinv, _, _, hsum⟩ := runConsumes_spec reqs m k p hv hk hp
    rw [hsum]
    have h1 : 0 ≤ p'.remaining_fte := hinv.1
    have h2 : p.remaining_fte ≤ p.ceiling_fte := hp.2.1
    linarith

theorem claim_C2_witness :
    (lookupPool fixturePoolsLit "shrinkage_reduction"
        = some { ceiling_fte := 8, remaining_fte := 8, ceiling_saving := 440000,
                 unit := "fte", remaining_saving := some 440000,
                 current_shrinkage := some 0.3, target_shrinkage := some 0.22,
                 gap := some 0.08 }
      ∧ PoolInv { ceiling_fte := 8, remaining_fte := 8, ceiling_saving := 440000,
                  unit := "fte", remaining_saving := some 440000,
                  current_shrinkage := some 0.3, target_shrinkage := some 0.22,
                  gap := some 0.08 })
    ∧ ((∀ eqs rs ps k' p', lookupPool (computePools eqs rs ps).pools k' = some p' →
          p'.remaining_fte = p'.ceiling_fte ∧ Mult10 p'.remaining_fte)
      ∧ (∀ lever aF aC aS, 0 ≤ aF → Mult10 aF →
          ∃ p', lookupPool (consumePool fixturePoolsLit lever aF aC aS).1
              "shrinkage_reduction" = some p'
            ∧ 0 ≤ p'.remaining_fte
            ∧ p'.remaining_fte ≤ (8 : ℚ)
            ∧ p'.ceiling_fte = (8 : ℚ)
            ∧ p'.remaining_fte ≤ p'.ceiling_fte)
      ∧ (∀ reqs, (∀ e ∈ reqs, 0 ≤ e.2 ∧ Mult10 e.2) →
          consumedOn "shrinkage_reduction"
            (runConsumes fixturePoolsLit reqs).2 ≤ (8 : ℚ))) :=
  ⟨⟨rfl, by refine ⟨by norm_num, by norm_num, ⟨80, by norm_num⟩⟩⟩,
   claim_C2 fixturePoolsLit "shrinkage_reduction" _ rfl
     ⟨by norm_num, by norm_num, ⟨80, by norm_num⟩⟩⟩

/-! # Claim C9 — IRR estimator -/

/-- The damped Newton–Raphson candidate rate stays in `[-0.5, 10]`
(i.e. `[-50 %, 1000 %]`) through every iteration. -/
theorem irrLoop_bounds (cf : List ℚ) :
    ∀ (fuel : ℕ) (rate : ℚ), -0.5 ≤ rate → rate ≤ 10 →
      -0.5 ≤ irrLoop cf fuel rate ∧ irrLoop cf fuel rate ≤ 10 := by
  intro fuel
  induction fuel with
  | zero => intro rate h1 h2; exact ⟨h1, h2⟩
  | succ n ih =>
      intro rate h1 h2
      unfold irrLoop
      dsimp only
      split_ifs
      · exact ⟨h1, h2⟩
      · constructor
        · exact le_max_left _ _
        · exact max_le (by norm_num) (min_le_left _ _)
      · exact ih _ (le_max_left _ _) (max_le (by norm_num) (min_le_left _ _))

/-- Claim C9: (a) the IRR of an all-zero (or empty) cash-flow vector
is 0.0; (b) the candidate rate is clamped to `[-0.5, 10]` on every
iteration; (c) for any cash-flow vector with one negative entry
followed by positive entries (and any start guess in the clamp range —
the source always starts at 0.10) the returned percentage is a finite
rational in `[-50, 1000]`. -/
theorem claim_C9 :
    (∀ cf : List ℚ, (∀ x ∈ cf, x = 0) → estimateIrr cf 0.10 100 = 0)
    ∧ (∀ (cf : List ℚ) (fuel : ℕ) (rate : ℚ), -0.5 ≤ rate → rate ≤ 10 →
        -0.5 ≤ irrLoop cf fuel rate ∧ irrLoop cf fuel rate ≤ 10)
    ∧ (∀ (c0 : ℚ) (rest : List ℚ) (guess : ℚ) (maxIter : ℕ),
        c0 < 0 → (∀ x ∈ rest, 0 < x) → -0.5 ≤ guess → guess ≤ 10 →
        -50 ≤ estimateIrr (c0 :: rest) guess maxIter
          ∧ estimateIrr (c0 :: rest) guess maxIter ≤ 1000) := by
  refine ⟨?_, irrLoop_bounds, ?_⟩
  · intro cf h
    unfold estimateIrr
    rw [if_pos]
    right
    exact List.all_eq_true.mpr (fun x hx => decide_eq_true (h x hx))
  · intro c0 rest guess maxIter hc0 _ hg1 hg2
    have hne : ¬(c0 :: rest = [] ∨ (c0 :: rest).all (· = 0) = true) := by
      rintro (h | h)
      · exact List.cons_ne_nil _ _ h
      · have := List.all_eq_true.mp h c0 (List.mem_cons_self _ _)
        rw [decide_eq_true_eq] at this
        exact absurd this (ne_of_lt hc0)
    unfold estimateIrr
    rw [if_neg hne]
    obtain ⟨hl1, hl2⟩ := irrLoop_bounds (c0 :: rest) maxIter guess hg1 hg2
    have hm50 : Mult10 (-50 : ℚ) := ⟨-500, by norm_num⟩
    have hm1000 : Mult10 (1000 : ℚ) := ⟨10000, by norm_num⟩
    constructor
    · have h : rnd1 (-50 : ℚ) ≤ rnd1 (irrLoop (c0 :: rest) maxIter guess * 100) :=
        rnd1_mono (by linarith)
      rwa [rnd1_eq_self hm50] at h
    · have h : rnd1 (irrLoop (c0 :: rest) maxIter guess * 100) ≤ rnd1 (1000 : ℚ) :=
        rnd1_mono (by linarith)
      rwa [rnd1_eq_self hm1000] at h

theorem claim_C9_witness :
    ((∀ x ∈ ([0, 0, 0] : List ℚ), x = 0) ∧ estimateIrr [0, 0, 0] 0.10 100 = 0)
    ∧ ((-100 : ℚ) < 0 ∧ (∀ x ∈ ([50, 60, 70] : List ℚ), 0 < x)
      ∧ -50 ≤ estimateIrr [-100, 50, 60, 70] 0.10 100
      ∧ estimateIrr [-100, 50, 60, 70] 0.10 100 ≤ 1000) :=
  ⟨⟨fun x hx => by simpa using hx,
    claim_C9.1 [0, 0, 0] (fun x hx => by simpa using hx)⟩,
   ⟨by norm_num,
    fun x hx => by simp at hx; rcases hx with h | h | h <;> rw [h] <;> norm_num,
    claim_C9.2.2 (-100) [50, 60, 70] 0.10 100 (by norm_num)
      (fun x hx => by simp at hx; rcases hx with h | h | h <;> rw [h] <;> norm_num)
      (by norm_num) (by norm_num)⟩⟩

/-- The enrichment of the fixture queue, as an explicit literal. -/
def voiceEnriched : EnrichedQueue :=
  { q := voiceQueue
    repeatability := 0.85
    emotional_risk := 0.1
    auth_required := 0.2
    containment_feasibility := 0.845
    deflection_eligible_pct := 0.799
    aht_decomp :=
      { talk_sec := 198, hold_sec := 18, search_sec := 90, other_sec := 54,
        wrap_sec := 60, total_handle_sec := 420, reducible_sec := 173.1 }
    transfer_class :=
      { total_rate := 0.1, preventable_rate := 0.075, structural_rate := 0.025,
        preventable_share := 0.75 }
    migration_readiness := 0.685 }

theorem enrichFixture_eq : enrichIntents [voiceQueue] = [voiceEnriched] := by
  norm_num [enrichIntents, enrichQueue, voiceQueue, voiceEnriched,
    repeatabilityFromComplexity, emotionalRiskFromComplexity,
    authRequiredFromComplexity, containmentFeasibility, decomposeAht,
    transferClassification, migrationReadiness, digitalChannels,
    highEmotionKeywords, midEmotionKeywords, noAuthKeywords, highAuthKeywords,
    strHas, lowerStr, hasSub, leadMatch, rnd1, rnd3, rnd4, roundTo, round_eq]
  simp

/-! # Claim C7 — S-curve ramp -/

theorem logistic_le_logistic {x y : ℝ} (h : x ≤ y) :
    1 / (1 + Real.exp (-x)) ≤ 1 / (1 + Real.exp (-y)) := by
  have he : Real.exp (-y) ≤ Real.exp (-x) := Real.exp_le_exp.mpr (by linarith)
  have hy : (0 : ℝ) < 1 + Real.exp (-y) := by positivity
  exact one_div_le_one_div_of_le hy (by linarith)

/-- Claim C7: for every `ramp_months > 0`, `ramp(0) = 0`,
`ramp(ramp_months)` lies in `[0.93, 1]` (it is exactly 1 via the
`months_since_golive >= ramp_months` early return), and `ramp` is
monotonically non-decreasing in the month offset. -/
theorem claim_C7 (r : ℝ) (hr : 0 < r) :
    sCurveRamp 0 r = 0
    ∧ (0.93 ≤ sCurveRamp r r ∧ sCurveRamp r r ≤ 1)
    ∧ (∀ t₁ t₂ : ℝ, t₁ ≤ t₂ → sCurveRamp t₁ r ≤ sCurveRamp t₂ r) := by
  have hramp_r : sCurveRamp r r = 1 := by
    unfold sCurveRamp
    rw [if_neg (by linarith), if_pos (le_refl r)]
  refine ⟨by simp [sCurveRamp], by rw [hramp_r]; norm_num, ?_⟩
  intro t₁ t₂ h
  unfold sCurveRamp
  dsimp only
  by_cases h1 : t₁ ≤ 0
  · rw [if_pos h1]
    split_ifs with h2 h3
    · exact le_refl 0
    · norm_num
    · exact le_max_left 0 _
  · rw [if_neg h1]
    have h2 : ¬ t₂ ≤ 0 := by intro hc; exact h1 (le_trans h hc)
    rw [if_neg h2]
    by_cases hr1 : r ≤ t₁
    · rw [if_pos hr1, if_pos (le_trans hr1 h)]
    · rw [if_neg hr1]
      by_cases hr2 : r ≤ t₂
      · rw [if_pos hr2]
        exact max_le (by norm_num) (min_le_left _ _)
      · rw [if_neg hr2]
        apply max_le_max (le_refl 0)
        apply min_le_min (le_refl 1)
        have hk : (0 : ℝ) ≤ 6.0 / r := by positivity
        have hnum : 1 / (1 + Real.exp (-(6.0 / r * (t₁ - r * 0.45))))
            ≤ 1 / (1 + Real.exp (-(6.0 / r * (t₂ - r * 0.45)))) :=
          logistic_le_logistic (mul_le_mul_of_nonneg_left (by linarith) hk)
        have hd : (0 : ℝ) < max (1 / (1 + Real.exp (-(6.0 / r * (r - r * 0.45))))
            - 1 / (1 + Real.exp (-(6.0 / r * (0 - r * 0.45))))) 0.001 :=
          lt_of_lt_of_le (by norm_num) (le_max_right _ _)
        exact div_le_div_of_nonneg_right (by linarith) hd.le

theorem claim_C7_witness :
    (0 : ℝ) < 12
    ∧ (sCurveRamp 0 12 = 0
      ∧ (0.93 ≤ sCurveRamp 12 12 ∧ sCurveRamp 12 12 ≤ 1)
      ∧ (∀ t₁ t₂ : ℝ, t₁ ≤ t₂ → sCurveRamp t₁ 12 ≤ sCurveRamp t₂ 12)) :=
  ⟨by norm_num, claim_C7 12 (by norm_num)⟩

/-! # Claim C10 — channel-mismatch fallback to all queues -/

/-- A deflection initiative whose channel list matches no queue in the
dataset. -/
def c10Init : InitInputs :=
  { id := "X01", layer := "AI & Automation", lever := "deflection",
    impact := 0.3, adoption := 0.8, channels := ["Fax"],
    roles := ["Agent L1"], effort := "medium", ramp := 6, startMonth := 1,
    benefitEndMonth := 0, matchScore := 50, enabled := true }

/-- Claim C10: when no queue matches the initiative's channels,
`compute_gross_impact` silently falls back to the **entire** queue set
(rather than returning zero impact); concretely, the all-Voice fixture
dataset gives a `["Fax"]`-channel deflection initiative 192 gross
deflected contacts. -/
theorem claim_C10 :
    (∀ (chans : List String) (qs : List EnrichedQueue),
        (∀ q ∈ qs, q.q.channel ∉ chans) → matchingQueues chans qs = qs)
    ∧ ((∀ q ∈ enrichIntents [voiceQueue], q.q.channel ∉ c10Init.channels)
      ∧ (computeGrossImpact c10Init (enrichIntents [voiceQueue]) [agentRole]
          baseParams).gross_contacts = 192
      ∧ (192 : ℚ) ≠ 0) := by
  constructor
  · intro chans qs h
    unfold matchingQueues
    have hf : qs.filter (fun q => q.q.channel ∈ chans) = [] := by
      rw [List.filter_eq_nil_iff]
      intro a ha
      simpa using h a ha
    rw [hf]
    simp
  · refine ⟨?_, ?_, by norm_num⟩
    · rw [enrichFixture_eq]
      intro q hq
      simp at hq
      subst hq
      simp [voiceEnriched, voiceQueue, c10Init]
    · rw [enrichFixture_eq]
      norm_num [computeGrossImpact, c10Init, grossDeflection, matchingQueues,
        affectedFteOf, affectedRoles, affectedCostOf, grossAvgAhtSec,
        voiceEnriched, voiceQueue, agentRole, baseParams, rnd0, rnd1, roundTo,
        round_eq]
      simp
      norm_num [round_eq]

theorem claim_C10_witness :
    (∀ q ∈ enrichIntents [voiceQueue], q.q.channel ∉ (["Fax"] : List String))
    ∧ matchingQueues ["Fax"] (enrichIntents [voiceQueue]) = enrichIntents [voiceQueue] := by
  have h : ∀ q ∈ enrichIntents [voiceQueue], q.q.channel ∉ (["Fax"] : List String) := by
    rw [enrichFixture_eq]
    intro q hq
    simp at hq
    subst hq
    simp [voiceEnriched, voiceQueue]
  exact ⟨h, claim_C10.1 ["Fax"] (enrichIntents [voiceQueue]) h⟩

/-! # Claim C6 — transfer gross formula

The claim says `_gross_transfer` uses the enrichment transfer
classification (tier share 0.75/0.50/0.30/0.15 with the ×0.70
escalation adjustment).  It does not: enriched queues never carry the
`preventable_transfer_pct` key the formula reads, so its default
`max(0.15, 0.55 − 0.40·complexity)` is always used instead. -/

theorem enrichQueue_q (q : Queue) : (enrichQueue q).q = q := rfl

/-- High-volume variant of the fixture queue. -/
def c6Queue : Queue := { voiceQueue with volume := 1000000 }

def c6Enriched : EnrichedQueue := { voiceEnriched with q := c6Queue }

theorem enrichC6_eq : enrichIntents [c6Queue] = [c6Enriched] := by
  norm_num [enrichIntents, enrichQueue, c6Queue, voiceQueue, c6Enriched,
    voiceEnriched, repeatabilityFromComplexity, emotionalRiskFromComplexity,
    authRequiredFromComplexity, containmentFeasibility, decomposeAht,
    transferClassification, migrationReadiness, digitalChannels,
    highEmotionKeywords, midEmotionKeywords, noAuthKeywords, highAuthKeywords,
    strHas, lowerStr, hasSub, leadMatch, rnd1, rnd3, rnd4, roundTo, round_eq]
  simp

/-- The claim is false on the enriched high-volume fixture queue
(complexity 0.20, escalation 0, transfer 10 %): enrichment classifies
a preventable share of 0.75 (37 500 preventable transfers at impact
0.5 × adoption 1), but `_gross_transfer` prevents only 23 500 contacts
(share 0.47) and reports 0.8 gross FTE instead of the claimed 1.3. -/
theorem claim_C6_counterexample :
    enrichIntents [c6Queue] = [c6Enriched]
    ∧ (grossTransfer [c6Enriched] 55000 1456 0.5 1).gross_contacts = 23500
    ∧ specTransferGrossContacts [c6Enriched] 0.5 1 = 37500
    ∧ (grossTransfer [c6Enriched] 55000 1456 0.5 1).gross_fte = 0.8
    ∧ rnd1 (specTransferGrossFte [c6Enriched] 0.5 1 1456) = 1.3
    ∧ (23500 : ℚ) ≠ 37500 ∧ (0.8 : ℚ) ≠ 1.3 := by
  refine ⟨enrichC6_eq, ?_, ?_, ?_, ?_, by norm_num, by norm_num⟩ <;>
    norm_num [grossTransfer, specTransferGrossContacts, specTransferGrossFte,
      c6Enriched, voiceEnriched, c6Queue, voiceQueue, rnd0, rnd1, roundTo,
      round_eq]

/-- Amended claim C6: for every transfer-reduction gross computation,
the preventable share applied per queue is the fallback
`max(0.15, 0.55 − 0.40·complexity)`, not the enrichment
classification; on simple low-escalation intents
(complexity ≤ 0.30, escalation ≤ 0.15, transfer > 0) the enrichment
classifies 0.75 while the gross formula's share is strictly smaller.
Each prevented transfer is still converted at 180 s to hours and FTE. -/
theorem claim_C6 (raw : Queue) (cost netHours impact adoption : ℚ)
    (hc : raw.complexity ≤ 0.30) (hc0 : 0 ≤ raw.complexity)
    (he : ¬ raw.escalation > 0.15) (ht : raw.transfer > 0) :
    (enrichQueue raw).transfer_class.preventable_share = 0.75
    ∧ max 0.15 (0.55 - raw.complexity * 0.40) < 0.75
    ∧ (∀ queues : List EnrichedQueue,
        (grossTransfer queues cost netHours impact adoption).gross_fte
          = rnd1 ((queues.map (fun q => q.q.volume * q.q.transfer
              * max 0.15 (0.55 - q.q.complexity * 0.40) * impact * adoption)).sum
              * 180 / 3600 / max netHours 1)
        ∧ (grossTransfer queues cost netHours impact adoption).gross_contacts
          = rnd0 ((queues.map (fun q => q.q.volume * q.q.transfer
              * max 0.15 (0.55 - q.q.complexity * 0.40) * impact * adoption)).sum)) := by
  refine ⟨?_, ?_, fun queues => ⟨rfl, rfl⟩⟩
  · unfold enrichQueue transferClassification
    dsimp only
    rw [if_neg (not_le.mpr ht), if_pos hc, if_neg he]
    norm_num [rnd3, roundTo, round_eq]
  · exact max_lt (by norm_num) (by linarith)

theorem claim_C6_witness :
    ((c6Queue.complexity ≤ 0.30 ∧ 0 ≤ c6Queue.complexity)
      ∧ ¬ c6Queue.escalation > 0.15 ∧ c6Queue.transfer > 0)
    ∧ ((enrichQueue c6Queue).transfer_class.preventable_share = 0.75
      ∧ max 0.15 (0.55 - c6Queue.complexity * 0.40) < 0.75) := by
  have h1 : c6Queue.complexity ≤ 0.30 := by norm_num [c6Queue, voiceQueue]
  have h2 : (0 : ℚ) ≤ c6Queue.complexity := by norm_num [c6Queue, voiceQueue]
  have h3 : ¬ c6Queue.escalation > 0.15 := by norm_num [c6Queue, voiceQueue]
  have h4 : c6Queue.transfer > 0 := by norm_num [c6Queue, voiceQueue]
  have h := claim_C6 c6Queue 55000 1456 0.5 1 h1 h2 h3 h4
  exact ⟨⟨⟨h1, h2⟩, h3, h4⟩, h.1, h.2.1⟩


/-! # Claim C3 — per-initiative caps on `_fteImpact`

The pre-rounding reduction `red` respects
`min(gross, INITIATIVE_FTE_CAPS[lever]*affected, 0.20*affected)`, but
the stored `_fteImpact = round(red, 1)` can round **above** the cap:
with one affected role of headcount 1 and a large deflection gross,
`red = 0.18` is stored as `_fteImpact = 0.2 > 0.18`. -/

def c3Role : Role := { role := "Solo", headcount := 1, costPerFTE := 50000 }

def c3Init : InitInputs :=
  { id := "AI01", layer := "AI & Automation", lever := "deflection",
    impact := 0.3, adoption := 0.8, channels := ["Voice"], roles := ["Solo"],
    effort := "high", ramp := 9, startMonth := 1, benefitEndMonth := 0,
    matchScore := 80, enabled := true }

/-- `compute_pools` output for the high-volume single-queue dataset. -/
def c3PoolsLit : PoolMap :=
  [("deflection",
    { ceiling_fte := 46.4, remaining_fte := 46.4, ceiling_saving := 2318527,
      unit := "contacts", ceiling_contacts := some 675155,
      remaining_contacts := some 675155, ceiling_pct := some 0.6752 }),
   ("aht_reduction",
    { ceiling_fte := 33, remaining_fte := 33, ceiling_saving := 1651213,
      unit := "seconds", ceiling_seconds := some 173100000,
      remaining_seconds := some 173100000, ceiling_hours := some 48083.3 }),
   ("transfer_reduction",
    { ceiling_fte := 2.6, remaining_fte := 2.6, ceiling_saving := 128777,
      unit := "transfers", ceiling_contacts := some 75000,
      remaining_contacts := some 75000 }),
   ("escalation_reduction",
    { ceiling_fte := 0, remaining_fte := 0, ceiling_saving := 0,
      unit := "escalations", ceiling_contacts := some 0,
      remaining_contacts := some 0 }),
   ("repeat_reduction",
    { ceiling_fte := 4.8, remaining_fte := 4.8, ceiling_saving := 240385,
      unit := "contacts", ceiling_contacts := some 70000,
      remaining_contacts := some 70000 }),
   ("location",
    { ceiling_fte := 0, remaining_fte := 0, ceiling_saving := 0, unit := "fte",
      remaining_saving := some 0, migratable_share := some 0.685,
      cost_arbitrage := some 0.35 }),
   ("shrinkage_reduction",
    { ceiling_fte := 0.1, remaining_fte := 0.1, ceiling_saving := 4000,
      unit := "fte", remaining_saving := some 4000,
      current_shrinkage := some 0.3, target_shrinkage := some 0.22,
      gap := some 0.08 })]

theorem c3Prelude_eq :
    waterfallPrelude baseParams [c6Queue] [c3Role]
      = ([c6Enriched],
         { pools := c3PoolsLit
           summary :=
             { total_pool_fte := 86.9, total_pool_saving := 4342902,
               total_fte := 1, total_volume := 1000000, net_prod_hours := 1456,
               weighted_cost_per_fte := 50000, shrinkage := 0.3 }
           annualization_factor := 1 }) := by
  unfold waterfallPrelude
  rw [enrichC6_eq]
  norm_num [computePools, c3PoolsLit, c6Enriched, voiceEnriched, c6Queue,
    voiceQueue, c3Role, baseParams, mkContactPool, totalFteOf, netProdHoursOf,
    totalVolumeOf, annQueuesOf, weightedCostOf, deflectableContactsOf,
    avgAhtSecOf, reducibleSecondsOf, preventableTransfersOf,
    preventableEscalationsOf, weightedRepeatOf, weightedFcrOf, repeatContactsOf,
    migratableShareOf, migratableFteOf, migratableRoles, rnd0, rnd1, rnd3, rnd4,
    roundTo, round_eq]
  simp
  norm_num [round_eq]

/-- The result record the cascade writes for `c3Init`. -/
def c3Res : CoreRes :=
  { fteImpact := 0.2, annualSaving := 9000, effectiveImpact := 0.18,
    poolConsumed := 0.2, grossFTE := 13.2, grossSaving := 660000,
    poolCapped := false, capApplied := true, startMonthR := 1, endMonthR := 36,
    rampCompleteMonthR := 10, linkedQueues := 1, red := 0.18, rawFte := 13.2,
    isLocation := false }

/-- The claim is false on a one-role (headcount 1) deflection
initiative: the cap is `min(0.20*1, 0.18*1) = 0.18`, and the stored
`_fteImpact` is `round(0.18, 1) = 0.2 > 0.18`. -/
theorem claim_C3_counterexample :
    (runCascade baseParams [c6Queue] [c3Role] [c3Init]).2
      = [(0, CoreOut.done c3Res)]
    ∧ affectedFteOf c3Init.roles [c3Role] = 1
    ∧ initiativeFteCapOf c3Init.lever = 0.18
    ∧ c3Res.fteImpact = 0.2
    ∧ ¬ c3Res.fteImpact
        ≤ min (ABSOLUTE_SINGLE_INIT_CAP * 1) (initiativeFteCapOf c3Init.lever * 1) := by
  have hs : sortedEnabled [c3Init] = [(0, c3Init)] := rfl
  refine ⟨?_, ?_, ?_, ?_, ?_⟩
  · simp only [runCascade, c3Prelude_eq, hs, List.foldl_cons, List.foldl_nil]
    norm_num [cascadeStep, computeGrossImpact, grossDeflection, matchingQueues,
      affectedRoles, affectedFteOf, affectedCostOf, grossAvgAhtSec, consumePool,
      consumeSideUnits, lookupPool, setPool, poolKeyOf, leverPoolMap,
      List.find?, c3PoolsLit, c3Res, c3Init, c3Role, c6Enriched, voiceEnriched,
      c6Queue, voiceQueue, baseParams, initiativeFteCapOf, INITIATIVE_FTE_CAPS,
      ABSOLUTE_SINGLE_INIT_CAP, PER_ROLE_MAX_REDUCTION, cumOf, bumpCum,
      initRoleCum, linkedQueuesOf, rnd0, rnd1, rnd4, roundTo, round_eq]
  · norm_num [affectedFteOf, affectedRoles, c3Init, c3Role]
  · norm_num [initiativeFteCapOf, INITIATIVE_FTE_CAPS, c3Init, List.find?]
  · norm_num [c3Res]
  · norm_num [c3Res, ABSOLUTE_SINGLE_INIT_CAP, initiativeFteCapOf,
      INITIATIVE_FTE_CAPS, c3Init, List.find?]

theorem rnd1_le_add_twentieth (x : ℚ) : rnd1 x ≤ x + 1 / 20 := by
  have h := round_le_add_half (x * 10 ^ 1)
  simp only [rnd1, roundTo]
  rw [div_le_iff₀ (by norm_num : (0 : ℚ) < 10 ^ 1)]
  linarith

theorem initiativeFteCapOf_nonneg (lever : String) : 0 ≤ initiativeFteCapOf lever := by
  unfold initiativeFteCapOf
  cases h : List.find? (fun e => e.1 = lever) INITIATIVE_FTE_CAPS with
  | none => norm_num
  | some e =>
      have hm := List.mem_of_find?_eq_some h
      simp only [INITIATIVE_FTE_CAPS, List.mem_cons, List.not_mem_nil, or_false] at hm
      simp only [Option.map_some', Option.getD_some]
      rcases hm with rfl | rfl | rfl | rfl | rfl | rfl | rfl <;> norm_num

theorem mult10_computeGrossImpact (init : InitInputs) (qs : List EnrichedQueue)
    (rs : List Role) (p : Params) :
    Mult10 (computeGrossImpact init qs rs p).gross_fte := by
  unfold computeGrossImpact grossDeflection grossAhtReduction grossEscalation
    grossRepeat grossTransfer grossLocation grossShrinkage grossGeneric
  dsimp only
  split_ifs <;> first | exact mult10_rnd1 _ | exact mult10_zero

/-- `consume_pool` returns a `consumed_fte` between 0 and the
(nonnegative, 1/10-grid) requested amount. -/
theorem consumePool_consumed_le (m : PoolMap) (lever : String) (aF aC aS : ℚ)
    (h0 : 0 ≤ aF) (hM : Mult10 aF) :
    0 ≤ (consumePool m lever aF aC aS).2.consumed_fte
    ∧ (consumePool m lever aF aC aS).2.consumed_fte ≤ aF := by
  unfold consumePool
  dsimp only
  cases hpk : lookupPool m (poolKeyOf lever) with
  | none => exact ⟨le_refl 0, h0⟩
  | some pool =>
      dsimp only
      split_ifs with hrem
      · exact ⟨le_refl 0, h0⟩
      all_goals
        exact ⟨rnd1_nonneg (le_min h0 (le_of_not_le hrem)),
          le_of_le_of_eq (rnd1_mono (min_le_left aF pool.remaining_fte))
            (rnd1_eq_self hM)⟩

/-- Amended claim C3: for every processed non-location initiative, the
pre-rounding reduction `red` is at most the gross FTE and at most
`min(INITIATIVE_FTE_CAPS[lever]·affected_fte, 0.20·affected_fte)`; the
stored `_fteImpact = round(red, 1)` is still at most the gross FTE
(which sits on the 1/10 grid), but exceeds the caps by up to the
rounding slack 0.05 — `_fteImpact ≤ red + 1/20` is the sharp bound. -/
theorem claim_C3 (params : Params) (queues : List Queue)
    (annualQueues : List EnrichedQueue) (roles : List Role)
    (st : CascadeState) (init : InitInputs) (c : CoreRes)
    (hroles : ∀ r ∈ roles, 0 ≤ r.headcount)
    (hgross : 0 ≤ (computeGrossImpact init annualQueues roles params).gross_fte)
    (hstep : (cascadeStep params queues annualQueues roles st init).2 = CoreOut.done c)
    (hloc : c.isLocation = false) :
    c.red ≤ c.rawFte
    ∧ c.red ≤ initiativeFteCapOf init.lever * affectedFteOf init.roles roles
    ∧ c.red ≤ ABSOLUTE_SINGLE_INIT_CAP * affectedFteOf init.roles roles
    ∧ c.fteImpact ≤ c.rawFte
    ∧ c.fteImpact ≤ c.red + 1 / 20 := by
  have htot : 0 ≤ affectedFteOf init.roles roles := by
    apply List.sum_nonneg
    intro x hx
    simp only [List.mem_map] at hx
    obtain ⟨r, hr, rfl⟩ := hx
    exact hroles r (List.mem_of_mem_filter hr)
  unfold cascadeStep at hstep
  dsimp only at hstep
  by_cases h0 : ((affectedRoles init.roles roles).map (·.headcount)).sum = 0
  · rw [if_pos h0] at hstep
    exact absurd hstep (by simp)
  · rw [if_neg h0] at hstep
    by_cases hl : (computeGrossImpact init annualQueues roles params).is_location
    · rw [if_pos hl] at hstep
      injection hstep with hc
      subst hc
      simp at hloc
    · rw [if_neg hl] at hstep
      injection hstep with hc
      subst hc
      dsimp only
      set g := computeGrossImpact init annualQueues roles params with hg
      set net := (consumePool st.pools init.lever g.gross_fte g.gross_contacts
        g.gross_seconds).2.consumed_fte with hnet
      have hMg : Mult10 g.gross_fte := mult10_computeGrossImpact init annualQueues roles params
      have hrndg : rnd1 g.gross_fte = g.gross_fte := rnd1_eq_self hMg
      have hnet_le : net ≤ g.gross_fte ∧ 0 ≤ net := by
        have h := consumePool_consumed_le st.pools init.lever g.gross_fte
          g.gross_contacts g.gross_seconds hgross hMg
        exact ⟨h.2, h.1⟩
      have htotAff : affectedFteOf init.roles roles
          = ((affectedRoles init.roles roles).map (·.headcount)).sum := rfl
      have hcap1 : 0 ≤ initiativeFteCapOf init.lever * affectedFteOf init.roles roles :=
        mul_nonneg (initiativeFteCapOf_nonneg _) htot
      have hcap2 : 0 ≤ ABSOLUTE_SINGLE_INIT_CAP * affectedFteOf init.roles roles :=
        mul_nonneg (by norm_num [ABSOLUTE_SINGLE_INIT_CAP]) htot
      rw [← htotAff]
      have hXnet : ∀ a b : ℚ, min (min net a) b ≤ net :=
        fun a b => le_trans (min_le_left _ _) (min_le_left _ _)
      refine ⟨?_, ?_, ?_, ?_, ?_⟩
      · exact max_le hgross (le_trans (hXnet _ _) hnet_le.1)
      · exact max_le hcap1 (le_trans (min_le_left _ _)
          (le_trans (min_le_right _ _) (min_le_left _ _)))
      · exact max_le hcap2 (le_trans (min_le_left _ _)
          (le_trans (min_le_right _ _) (min_le_right _ _)))
      · refine le_trans (rnd1_mono (max_le hgross (le_trans (hXnet _ _) hnet_le.1)))
          (le_of_eq hrndg)
      · exact rnd1_le_add_twentieth _

/-- Witness for the amended C3 bounds at the concrete one-role deflection
fixture. -/
theorem claim_C3_witness :
    c3Res.red ≤ c3Res.rawFte
    ∧ c3Res.red ≤ initiativeFteCapOf c3Init.lever * affectedFteOf c3Init.roles [c3Role]
    ∧ c3Res.red ≤ ABSOLUTE_SINGLE_INIT_CAP * affectedFteOf c3Init.roles [c3Role]
    ∧ c3Res.fteImpact ≤ c3Res.rawFte
    ∧ c3Res.fteImpact ≤ c3Res.red + 1 / 20 :=
  claim_C3 baseParams [c6Queue] [c6Enriched] [c3Role]
    { pools := c3PoolsLit, roleCum := initRoleCum [c3Role] } c3Init c3Res
    (by
      intro r hr
      simp only [List.mem_singleton] at hr
      subst hr
      norm_num [c3Role])
    (by
      norm_num [computeGrossImpact, grossDeflection, matchingQueues,
        affectedRoles, affectedFteOf, affectedCostOf, grossAvgAhtSec,
        c3Init, c3Role, c6Enriched, voiceEnriched, c6Queue, voiceQueue,
        baseParams, rnd0, rnd1, rnd4, roundTo, round_eq])
    (by
      norm_num [cascadeStep, computeGrossImpact, grossDeflection,
        matchingQueues, affectedRoles, affectedFteOf, affectedCostOf,
        grossAvgAhtSec, consumePool, consumeSideUnits, lookupPool, setPool,
        poolKeyOf, leverPoolMap, List.find?, c3PoolsLit, c3Res, c3Init, c3Role,
        c6Enriched, voiceEnriched, c6Queue, voiceQueue, baseParams,
        initiativeFteCapOf, INITIATIVE_FTE_CAPS, ABSOLUTE_SINGLE_INIT_CAP,
        PER_ROLE_MAX_REDUCTION, cumOf, bumpCum, initRoleCum, linkedQueuesOf,
        rnd0, rnd1, rnd4, roundTo, round_eq])
    rfl

/-! # Claim C8 — location-lever initiatives

`cost_reduction` initiatives take the `_is_location` branch of the
cascade: `fteImpact` is 0 (also in the `tot_aff == 0` early patch),
`role_cum` is untouched, the `role_impact` ledger pass skips them, and
with no migration-ready matching queue the annual saving is exactly 0. -/

/-- The `fteImpact` an initiative record ends up with: 0 from the
`tot_aff == 0` patch, else the computed field. -/
def coreFte : CoreOut → ℚ
  | CoreOut.noRoles => 0
  | CoreOut.done c => c.fteImpact

/-- The `annualSaving` an initiative record ends up with. -/
def coreSaving : CoreOut → ℚ
  | CoreOut.noRoles => 0
  | CoreOut.done c => c.annualSaving

theorem computeGrossImpact_cost_reduction (init : InitInputs)
    (annualQueues : List EnrichedQueue) (roles : List Role) (params : Params)
    (hlever : init.lever = "cost_reduction") :
    computeGrossImpact init annualQueues roles params
      = grossLocation (matchingQueues init.channels annualQueues)
          (affectedFteOf init.roles roles) (affectedCostOf init.roles roles)
          init.impact init.adoption params := by
  unfold computeGrossImpact
  rw [hlever]
  norm_num
  split_ifs with h1 h2 h3 h4 h5
  · exact absurd h1 (by decide)
  · exact absurd h2 (by decide)
  · exact absurd h3 (by decide)
  · exact absurd h4 (by decide)
  · exact absurd h5 (by decide)
  · rfl

theorem grossLocation_saving_zero (queues : List EnrichedQueue)
    (aff cost impact adoption : ℚ) (params : Params)
    (hr : ∀ q ∈ queues, q.migration_readiness = 0) :
    (grossLocation queues aff cost impact adoption params).gross_saving = 0
    ∧ (grossLocation queues aff cost impact adoption params).gross_fte_migrated = 0 := by
  have hsum : (queues.map (fun q => q.q.volume * q.migration_readiness)).sum = 0 := by
    apply List.sum_eq_zero
    intro x hx
    simp only [List.mem_map] at hx
    obtain ⟨q, hq, rfl⟩ := hx
    rw [hr q hq, mul_zero]
  unfold grossLocation
  dsimp only
  rw [hsum]
  split_ifs with h <;> constructor <;> norm_num [rnd0, rnd1, roundTo, round_eq]

/-- Claim C8: a `cost_reduction` (location-lever) initiative always
yields `fteImpact = 0`, leaves `role_cum` untouched, contributes
nothing to the `role_impact` ledger, and — when no matching queue has
`migration_readiness > 0` (readiness being nonnegative) — its annual
saving is exactly 0. -/
theorem claim_C8 (params : Params) (queues : List Queue)
    (annualQueues : List EnrichedQueue) (roles : List Role)
    (st : CascadeState) (init : InitInputs) (horizon : ℕ)
    (acc : List (String × ℚ × List ℝ))
    (hlever : init.lever = "cost_reduction") :
    coreFte (cascadeStep params queues annualQueues roles st init).2 = 0
    ∧ (cascadeStep params queues annualQueues roles st init).1.roleCum = st.roleCum
    ∧ ledgerStep horizon roles acc
        (init, (cascadeStep params queues annualQueues roles st init).2) = acc
    ∧ ((∀ q ∈ matchingQueues init.channels annualQueues,
          ¬ 0 < q.migration_readiness ∧ 0 ≤ q.migration_readiness) →
        coreSaving (cascadeStep params queues annualQueues roles st init).2 = 0) := by
  by_cases h0 : ((affectedRoles init.roles roles).map (·.headcount)).sum = 0
  · have hstep : cascadeStep params queues annualQueues roles st init
        = (st, CoreOut.noRoles) := by
      unfold cascadeStep
      dsimp only
      rw [if_pos h0]
    rw [hstep]
    exact ⟨rfl, rfl, rfl, fun _ => rfl⟩
  · have hcg := computeGrossImpact_cost_reduction init annualQueues roles params hlever
    unfold cascadeStep
    dsimp only
    rw [if_neg h0, hcg]
    have hl : (grossLocation (matchingQueues init.channels annualQueues)
        (affectedFteOf init.roles roles) (affectedCostOf init.roles roles)
        init.impact init.adoption params).is_location = true := rfl
    rw [if_pos hl]
    refine ⟨rfl, rfl, rfl, ?_⟩
    intro hr
    have hr0 : ∀ q ∈ matchingQueues init.channels annualQueues,
        q.migration_readiness = 0 :=
      fun q hq => le_antisymm (not_lt.mp (hr q hq).1) (hr q hq).2
    have hz := grossLocation_saving_zero (matchingQueues init.channels annualQueues)
      (affectedFteOf init.roles roles) (affectedCostOf init.roles roles)
      init.impact init.adoption params hr0
    dsimp only [coreSaving]
    rw [hz.1, hz.2]
    rw [if_neg ?hcond]
    case hcond => exact fun h => absurd h.2 (lt_irrefl 0)
    norm_num [rnd0, roundTo, round_eq]

/-- A location-strategy initiative used to witness C8. -/
def c8Init : InitInputs :=
  { id := "LOC-1", layer := "Location Strategy", lever := "cost_reduction",
    impact := 0.5, adoption := 0.8, channels := ["Voice"], roles := ["Agent L1"],
    effort := "medium", ramp := 6, startMonth := 1, benefitEndMonth := 0,
    matchScore := 70, enabled := true }

/-- Witness for C8 at a concrete location initiative over an empty
queue set (so no matching queue is migration-ready). -/
theorem claim_C8_witness :
    coreFte (cascadeStep baseParams [] [] [agentRole]
        { pools := fixturePoolsLit, roleCum := initRoleCum [agentRole] } c8Init).2 = 0
    ∧ (cascadeStep baseParams [] [] [agentRole]
        { pools := fixturePoolsLit, roleCum := initRoleCum [agentRole] } c8Init).1.roleCum
      = initRoleCum [agentRole]
    ∧ ledgerStep 3 [agentRole] [("Agent L1", 100, [0, 0, 0])]
        (c8Init, (cascadeStep baseParams [] [] [agentRole]
          { pools := fixturePoolsLit, roleCum := initRoleCum [agentRole] } c8Init).2)
      = [("Agent L1", 100, [0, 0, 0])]
    ∧ coreSaving (cascadeStep baseParams [] [] [agentRole]
        { pools := fixturePoolsLit, roleCum := initRoleCum [agentRole] } c8Init).2 = 0 := by
  have h := claim_C8 baseParams [] [] [agentRole]
    { pools := fixturePoolsLit, roleCum := initRoleCum [agentRole] } c8Init 3
    [("Agent L1", 100, [0, 0, 0])] rfl
  exact ⟨h.1, h.2.1, h.2.2.1, h.2.2.2 (by simp [matchingQueues])⟩

def c1Params : Params := { baseParams with targetShrinkage := 0.10 }

def c1RoleA : Role := { role := "A", headcount := 10, costPerFTE := 50000 }

def c1RoleB : Role := { role := "B", headcount := 90, costPerFTE := 50000 }

def c1Init (n : String) (ms : ℚ) (rs : List String) : InitInputs :=
  { id := n, layer := "Operating Model", lever := "shrinkage_reduction",
    impact := 1, adoption := 1, channels := [], roles := rs,
    effort := "low", ramp := 6, startMonth := 1, benefitEndMonth := 0,
    matchScore := ms, enabled := true }

def c1Inits : List InitInputs :=
  [c1Init "S1" 90 ["A"], c1Init "S2" 85 ["A"], c1Init "S3" 80 ["A"],
   c1Init "S4" 75 ["A"], c1Init "S5" 70 ["A"], c1Init "S6" 60 ["A", "B"]]

/-- `compute_pools` output for the empty-queue two-role C1 dataset. -/
def c1PoolsLit : PoolMap :=
  [("deflection",
    { ceiling_fte := 0, remaining_fte := 0, ceiling_saving := 0,
      unit := "contacts", ceiling_contacts := some 0,
      remaining_contacts := some 0, ceiling_pct := some 0 }),
   ("aht_reduction",
    { ceiling_fte := 0, remaining_fte := 0, ceiling_saving := 0,
      unit := "seconds", ceiling_seconds := some 0,
      remaining_seconds := some 0, ceiling_hours := some 0 }),
   ("transfer_reduction",
    { ceiling_fte := 0, remaining_fte := 0, ceiling_saving := 0,
      unit := "transfers", ceiling_contacts := some 0,
      remaining_contacts := some 0 }),
   ("escalation_reduction",
    { ceiling_fte := 0, remaining_fte := 0, ceiling_saving := 0,
      unit := "escalations", ceiling_contacts := some 0,
      remaining_contacts := some 0 }),
   ("repeat_reduction",
    { ceiling_fte := 0, remaining_fte := 0, ceiling_saving := 0,
      unit := "contacts", ceiling_contacts := some 0,
      remaining_contacts := some 0 }),
   ("location",
    { ceiling_fte := 0, remaining_fte := 0, ceiling_saving := 0, unit := "fte",
      remaining_saving := some 0, migratable_share := some 0,
      cost_arbitrage := some 0.35 }),
   ("shrinkage_reduction",
    { ceiling_fte := 20, remaining_fte := 20, ceiling_saving := 1000000,
      unit := "fte", remaining_saving := some 1000000,
      current_shrinkage := some 0.3, target_shrinkage := some 0.1,
      gap := some 0.2 })]

theorem c1Prelude_eq :
    waterfallPrelude c1Params [] [c1RoleA, c1RoleB]
      = ([],
         { pools := c1PoolsLit
           summary :=
             { total_pool_fte := 20, total_pool_saving := 1000000,
               total_fte := 100, total_volume := 0, net_prod_hours := 1456,
               weighted_cost_per_fte := 50000, shrinkage := 0.3 }
           annualization_factor := 1 }) := by
  unfold waterfallPrelude
  norm_num [enrichIntents, computePools, c1PoolsLit, c1Params, c1RoleA, c1RoleB,
    baseParams, mkContactPool, totalFteOf, netProdHoursOf,
    totalVolumeOf, annQueuesOf, weightedCostOf, deflectableContactsOf,
    avgAhtSecOf, reducibleSecondsOf, preventableTransfersOf,
    preventableEscalationsOf, weightedRepeatOf, weightedFcrOf, repeatContactsOf,
    migratableShareOf, migratableFteOf, migratableRoles, rnd0, rnd1, rnd3, rnd4,
    roundTo, round_eq]

theorem computeGrossImpact_shrinkage (init : InitInputs)
    (qs : List EnrichedQueue) (rs : List Role) (p : Params)
    (hlever : init.lever = "shrinkage_reduction") :
    computeGrossImpact init qs rs p
      = grossShrinkage (affectedFteOf init.roles rs) (affectedCostOf init.roles rs)
          init.impact init.adoption p := by
  unfold computeGrossImpact
  rw [hlever]
  norm_num
  split_ifs with h1 h2 h3 h4 h5 h6
  · exact absurd h1 (by decide)
  · exact absurd h2 (by decide)
  · exact absurd h3 (by decide)
  · exact absurd h4 (by decide)
  · exact absurd h5 (by decide)
  · exact absurd h6 (by decide)
  · rfl

theorem poolKeyOf_shrinkage : poolKeyOf "shrinkage_reduction" = "shrinkage_reduction" := rfl

theorem initiativeFteCapOf_shrinkage :
    initiativeFteCapOf "shrinkage_reduction" = 0.10 := rfl

theorem defl_ne_shrink : ("deflection" : String) ≠ "shrinkage_reduction" := by decide

theorem aht_ne_shrink : ("aht_reduction" : String) ≠ "shrinkage_reduction" := by decide

theorem trans_ne_shrink :
    ("transfer_reduction" : String) ≠ "shrinkage_reduction" := by decide

theorem esc_ne_shrink :
    ("escalation_reduction" : String) ≠ "shrinkage_reduction" := by decide

theorem rep_ne_shrink : ("repeat_reduction" : String) ≠ "shrinkage_reduction" := by decide

theorem loc_ne_shrink : ("location" : String) ≠ "shrinkage_reduction" := by decide

theorem roleA_ne_roleB : ("A" : String) ≠ "B" := by decide

theorem roleB_ne_roleA : ("B" : String) ≠ "A" := by decide

set_option maxHeartbeats 3000000 in
/-- The claim is false: the 0.45 cap is enforced only against the
*summed* headroom of the affected roles, distributed pro-rata, so a
role sharing an initiative with a high-headroom role can be pushed past
0.45 x its own headcount.  Five shrinkage initiatives on role A
(headcount 10) saturate A at 4.5; a sixth on roles A and B (headcount
90) allocates 10 more pro-rata, leaving A at 5.5 > 4.5. -/
theorem claim_C1_counterexample :
    (runCascade c1Params [] [c1RoleA, c1RoleB] c1Inits).1.roleCum
      = [("A", 5.5), ("B", 9)]
    ∧ PER_ROLE_MAX_REDUCTION * c1RoleA.headcount = 4.5
    ∧ ¬ cumOf (runCascade c1Params [] [c1RoleA, c1RoleB] c1Inits).1.roleCum "A"
        ≤ PER_ROLE_MAX_REDUCTION * c1RoleA.headcount := by
  have hs : sortedEnabled c1Inits
      = [(0, c1Init "S1" 90 ["A"]), (1, c1Init "S2" 85 ["A"]),
         (2, c1Init "S3" 80 ["A"]), (3, c1Init "S4" 75 ["A"]),
         (4, c1Init "S5" 70 ["A"]), (5, c1Init "S6" 60 ["A", "B"])] := rfl
  have h1 : (runCascade c1Params [] [c1RoleA, c1RoleB] c1Inits).1.roleCum
      = [("A", 5.5), ("B", 9)] := by
    simp only [runCascade, c1Prelude_eq, hs, List.foldl_cons, List.foldl_nil]
    norm_num [cascadeStep, computeGrossImpact_shrinkage, poolKeyOf_shrinkage,
      initiativeFteCapOf_shrinkage, affectedRoles,
      defl_ne_shrink, aht_ne_shrink, trans_ne_shrink, esc_ne_shrink,
      rep_ne_shrink, loc_ne_shrink, roleA_ne_roleB, roleB_ne_roleA,
      grossShrinkage, matchingQueues,
      affectedFteOf, affectedCostOf, consumePool,
      consumeSideUnits, lookupPool, setPool,
      List.find?, c1PoolsLit, c1Init, c1RoleA, c1RoleB, c1Params, baseParams,
      ABSOLUTE_SINGLE_INIT_CAP,
      PER_ROLE_MAX_REDUCTION, cumOf, bumpCum, initRoleCum, linkedQueuesOf,
      rnd0, rnd1, rnd4, roundTo, round_eq]
  refine ⟨h1, by norm_num [PER_ROLE_MAX_REDUCTION, c1RoleA], ?_⟩
  rw [h1]
  norm_num [cumOf, PER_ROLE_MAX_REDUCTION, c1RoleA, List.find?]

/-- Amended claim C1: what the cascade actually guarantees per step is
an *aggregate* headroom bound: the reduction allocated by one
initiative is nonnegative and at most the summed remaining headroom
`max(0, 0.45 x headcount - role_cum)` over its affected roles (it is
then distributed pro-rata by headcount, which can push an individual
role past 0.45 x its own headcount). -/
theorem claim_C1 (params : Params) (queues : List Queue)
    (annualQueues : List EnrichedQueue) (roles : List Role)
    (st : CascadeState) (init : InitInputs) (c : CoreRes)
    (hstep : (cascadeStep params queues annualQueues roles st init).2
      = CoreOut.done c) :
    0 ≤ c.red
    ∧ c.red ≤ ((affectedRoles init.roles roles).map
        (fun r => max 0 (r.headcount * PER_ROLE_MAX_REDUCTION
          - cumOf st.roleCum r.role))).sum := by
  have havail : 0 ≤ ((affectedRoles init.roles roles).map
      (fun r => max 0 (r.headcount * PER_ROLE_MAX_REDUCTION
        - cumOf st.roleCum r.role))).sum := by
    apply List.sum_nonneg
    intro x hx
    simp only [List.mem_map] at hx
    obtain ⟨r, hr, rfl⟩ := hx
    exact le_max_left 0 _
  unfold cascadeStep at hstep
  dsimp only at hstep
  by_cases h0 : ((affectedRoles init.roles roles).map (·.headcount)).sum = 0
  · rw [if_pos h0] at hstep
    exact absurd hstep (by simp)
  · rw [if_neg h0] at hstep
    by_cases hl : (computeGrossImpact init annualQueues roles params).is_location
    · rw [if_pos hl] at hstep
      injection hstep with hc
      subst hc
      exact ⟨le_refl 0, havail⟩
    · rw [if_neg hl] at hstep
      injection hstep with hc
      subst hc
      dsimp only
      constructor
      · exact le_max_left 0 _
      · exact max_le havail (min_le_right _ _)

/-- The result record of the first C1 cascade step. -/
def c1Step1Res : CoreRes :=
  { fteImpact := 1, annualSaving := 50000, effectiveImpact := 0.1,
    poolConsumed := 1, grossFTE := 2, grossSaving := 100000,
    poolCapped := false, capApplied := true, startMonthR := 1,
    endMonthR := 36, rampCompleteMonthR := 7, linkedQueues := 0,
    red := 1, rawFte := 2, isLocation := false }

set_option maxHeartbeats 1500000 in
/-- Witness for the amended C1 bound at the first C1 cascade step. -/
theorem claim_C1_witness :
    0 ≤ c1Step1Res.red
    ∧ c1Step1Res.red
      ≤ ((affectedRoles (c1Init "S1" 90 ["A"]).roles [c1RoleA, c1RoleB]).map
          (fun r => max 0 (r.headcount * PER_ROLE_MAX_REDUCTION
            - cumOf (initRoleCum [c1RoleA, c1RoleB]) r.role))).sum :=
  claim_C1 c1Params [] [] [c1RoleA, c1RoleB]
    { pools := c1PoolsLit, roleCum := initRoleCum [c1RoleA, c1RoleB] }
    (c1Init "S1" 90 ["A"]) c1Step1Res
    (by
      norm_num [cascadeStep, computeGrossImpact_shrinkage, poolKeyOf_shrinkage,
      initiativeFteCapOf_shrinkage, affectedRoles,
      defl_ne_shrink, aht_ne_shrink, trans_ne_shrink, esc_ne_shrink,
      rep_ne_shrink, loc_ne_shrink, roleA_ne_roleB, roleB_ne_roleA,
      grossShrinkage, matchingQueues,
        affectedFteOf, affectedCostOf, consumePool,
        consumeSideUnits, lookupPool, setPool,
        List.find?, c1PoolsLit, c1Step1Res, c1Init, c1RoleA, c1RoleB, c1Params,
        baseParams, ABSOLUTE_SINGLE_INIT_CAP, PER_ROLE_MAX_REDUCTION,
        cumOf, bumpCum, initRoleCum, linkedQueuesOf,
        rnd0, rnd1, rnd4, roundTo, round_eq])

/-! # Claim C4 — sensitivity runs do not corrupt the base annotations

`_run_sensitivity` re-invokes `run_waterfall` on the *base* initiative
list under ±20 % perturbations of `volumeGrowth`, `wageInflation`,
`discountRate`, `attritionMonthly` and `redeploymentPct`.  None of
those five parameters is read by the initiative-annotation slice, and
re-annotating an already annotated list is the identity, so the base
records survive the whole chain unchanged. -/

/-- The per-record `contributionPct` rewrite of the safe-contribution
pass, with the run total as a parameter. -/
def pctPatch (t : ℚ) (i : InitInputs) (r : InitResults) : InitResults :=
  if i.enabled then { r with contributionPct := contributionPctOf t r.annualSaving }
  else { r with contributionPct := 0 }

theorem pctPass_eq (I : List InitInputs) (M : List InitResults) :
    pctPass I M = List.zipWith (pctPatch (totIsavOf I M)) I M := rfl

theorem resultsAfter_def (p : Params) (qs : List Queue) (rs : List Role)
    (I : List InitInputs) (R : List InitResults) :
    resultsAfter p qs rs I R = pctPass I (midResults p qs rs I R) := rfl

theorem length_pctPass (I : List InitInputs) (M : List InitResults) :
    (pctPass I M).length = min I.length M.length := by
  rw [pctPass_eq, List.length_zipWith]

theorem length_midResults (p : Params) (qs : List Queue) (rs : List Role)
    (I : List InitInputs) (R : List InitResults) :
    (midResults p qs rs I R).length = min I.length R.length := by
  unfold midResults
  rw [List.length_zipWith, List.enum_length]

theorem length_resultsAfter (p : Params) (qs : List Queue) (rs : List Role)
    (I : List InitInputs) (R : List InitResults) :
    (resultsAfter p qs rs I R).length = min I.length R.length := by
  rw [resultsAfter_def, length_pctPass, length_midResults]
  omega

theorem pctPass_getElem (I : List InitInputs) (M : List InitResults) (j : ℕ)
    (hj : j < (pctPass I M).length) (h1 : j < I.length) (h2 : j < M.length) :
    (pctPass I M)[j] = pctPatch (totIsavOf I M) I[j] M[j] := by
  simp only [pctPass_eq, List.getElem_zipWith]

theorem midResults_getElem (p : Params) (qs : List Queue) (rs : List Role)
    (I : List InitInputs) (R : List InitResults) (j : ℕ)
    (hj : j < (midResults p qs rs I R).length) (h1 : j < I.length)
    (h2 : j < R.length) :
    (midResults p qs rs I R)[j]
      = midOne p.horizon (cascadeOuts p qs rs I) j I[j] R[j] := by
  unfold midResults
  dsimp only
  simp only [List.getElem_zipWith, List.getElem_enum]

theorem midOne_sav_pctPatch (h : ℕ) (outs : List (ℕ × CoreOut)) (j : ℕ)
    (inp : InitInputs) (r : InitResults) (t : ℚ) :
    (midOne h outs j inp (pctPatch t inp (midOne h outs j inp r))).annualSaving
      = (midOne h outs j inp r).annualSaving := by
  unfold pctPatch midOne
  cases he : inp.enabled with
  | false => rfl
  | true =>
      cases hf : (List.find? (fun e => e.1 = j) outs).map (·.2) with
      | none => rfl
      | some v =>
          cases v with
          | noRoles => rfl
          | done c => rfl

theorem midOne_pctPatch_idem (h : ℕ) (outs : List (ℕ × CoreOut)) (j : ℕ)
    (inp : InitInputs) (r : InitResults) (t : ℚ) :
    pctPatch t inp (midOne h outs j inp (pctPatch t inp (midOne h outs j inp r)))
      = pctPatch t inp (midOne h outs j inp r) := by
  unfold pctPatch midOne
  cases he : inp.enabled with
  | false => rfl
  | true =>
      cases hf : (List.find? (fun e => e.1 = j) outs).map (·.2) with
      | none => rfl
      | some v =>
          cases v with
          | noRoles => rfl
          | done c => rfl

theorem resultsAfter_getElem (p : Params) (qs : List Queue) (rs : List Role)
    (I : List InitInputs) (R : List InitResults) (j : ℕ)
    (hj : j < (resultsAfter p qs rs I R).length) (h1 : j < I.length)
    (h2 : j < R.length) :
    (resultsAfter p qs rs I R)[j]
      = pctPatch (totIsavOf I (midResults p qs rs I R)) I[j]
          (midOne p.horizon (cascadeOuts p qs rs I) j I[j] R[j]) := by
  have hm : j < (midResults p qs rs I R).length := by
    rw [length_midResults]; omega
  have hp : j < (pctPass I (midResults p qs rs I R)).length := by
    rw [length_pctPass, length_midResults]; omega
  rw [List.getElem_of_eq (resultsAfter_def p qs rs I R) hj]
  rw [pctPass_getElem I (midResults p qs rs I R) j hp h1 hm]
  rw [midResults_getElem p qs rs I R j hm h1 h2]

theorem resultsAfter_idem (p : Params) (qs : List Queue) (rs : List Role)
    (I : List InitInputs) (R : List InitResults) (hlen : R.length = I.length) :
    resultsAfter p qs rs I (resultsAfter p qs rs I R) = resultsAfter p qs rs I R := by
  have hlenX : (resultsAfter p qs rs I R).length = I.length := by
    rw [length_resultsAfter]; omega
  have htot : totIsavOf I (midResults p qs rs I (resultsAfter p qs rs I R))
      = totIsavOf I (midResults p qs rs I R) := by
    unfold totIsavOf
    congr 1
    apply List.ext_get
    · simp only [List.length_zipWith, length_midResults, hlenX]
      omega
    · intro n h1 h2
      have hnI : n < I.length := by
        rw [List.length_zipWith, length_midResults, hlenX] at h1; omega
      have hnR : n < R.length := by omega
      have hnX : n < (resultsAfter p qs rs I R).length := by omega
      have hnM : n < (midResults p qs rs I R).length := by
        rw [length_midResults]; omega
      have hnM2 : n < (midResults p qs rs I (resultsAfter p qs rs I R)).length := by
        rw [length_midResults]; omega
      simp only [List.get_eq_getElem, List.getElem_zipWith]
      rw [midResults_getElem p qs rs I (resultsAfter p qs rs I R) n hnM2 hnI hnX]
      rw [resultsAfter_getElem p qs rs I R n hnX hnI hnR]
      rw [midResults_getElem p qs rs I R n hnM hnI hnR]
      rw [midOne_sav_pctPatch]
  apply List.ext_get
  · simp only [length_resultsAfter, hlenX]
    omega
  · intro n h1 h2
    have hnI : n < I.length := by
      rw [length_resultsAfter, hlenX] at h1; omega
    have hnR : n < R.length := by omega
    have hnX : n < (resultsAfter p qs rs I R).length := by omega
    simp only [List.get_eq_getElem]
    rw [resultsAfter_getElem p qs rs I (resultsAfter p qs rs I R) n h1 hnI hnX]
    rw [resultsAfter_getElem p qs rs I R n hnX hnI hnR]
    rw [htot]
    exact midOne_pctPatch_idem p.horizon (cascadeOuts p qs rs I) n I[n] R[n]
      (totIsavOf I (midResults p qs rs I R))

theorem map_inputs_zipWith (I : List InitInputs) (X : List InitResults)
    (h : I.length ≤ X.length) :
    (List.zipWith Initiative.mk I X).map (fun a => a.inputs) = I := by
  induction I generalizing X with
  | nil => rfl
  | cons i I ih =>
      cases X with
      | nil => simp at h
      | cons x X =>
          simp only [List.zipWith, List.map]
          rw [ih X (by simpa using h)]

theorem map_res_zipWith (I : List InitInputs) (X : List InitResults)
    (h : X.length ≤ I.length) :
    (List.zipWith Initiative.mk I X).map (fun a => a.res) = X := by
  induction I generalizing X with
  | nil =>
      cases X with
      | nil => rfl
      | cons x X => simp at h
  | cons i I ih =>
      cases X with
      | nil => rfl
      | cons x X =>
          simp only [List.zipWith, List.map]
          rw [ih X (by simpa using h)]

theorem map_inputs_annotate (p : Params) (qs : List Queue) (rs : List Role)
    (x : List Initiative) :
    (annotateInits p qs rs x).map (fun a => a.inputs) = x.map (fun a => a.inputs) := by
  unfold annotateInits
  rw [map_inputs_zipWith]
  rw [length_resultsAfter]
  simp [List.length_map]

theorem map_res_annotate (p : Params) (qs : List Queue) (rs : List Role)
    (x : List Initiative) :
    (annotateInits p qs rs x).map (fun a => a.res)
      = resultsAfter p qs rs (x.map (fun a => a.inputs)) (x.map (fun a => a.res)) := by
  unfold annotateInits
  rw [map_res_zipWith]
  rw [length_resultsAfter]
  simp [List.length_map]

theorem annotateInits_idem (p : Params) (qs : List Queue) (rs : List Role)
    (x : List Initiative) :
    annotateInits p qs rs (annotateInits p qs rs x) = annotateInits p qs rs x := by
  have h1 : annotateInits p qs rs (annotateInits p qs rs x)
      = List.zipWith Initiative.mk
          ((annotateInits p qs rs x).map (fun a => a.inputs))
          (resultsAfter p qs rs ((annotateInits p qs rs x).map (fun a => a.inputs))
            ((annotateInits p qs rs x).map (fun a => a.res))) := rfl
  rw [h1, map_inputs_annotate, map_res_annotate]
  rw [resultsAfter_idem p qs rs (x.map (fun a => a.inputs)) (x.map (fun a => a.res))
    (by simp [List.length_map])]
  rfl

theorem annotateInits_volumeGrowth (p : Params) (v : ℚ) (qs : List Queue)
    (rs : List Role) (x : List Initiative) :
    annotateInits { p with volumeGrowth := v } qs rs x = annotateInits p qs rs x := rfl

theorem annotateInits_wageInflation (p : Params) (v : ℚ) (qs : List Queue)
    (rs : List Role) (x : List Initiative) :
    annotateInits { p with wageInflation := v } qs rs x = annotateInits p qs rs x := rfl

theorem annotateInits_discountRate (p : Params) (v : ℚ) (qs : List Queue)
    (rs : List Role) (x : List Initiative) :
    annotateInits { p with discountRate := v } qs rs x = annotateInits p qs rs x := rfl

theorem annotateInits_attritionMonthly (p : Params) (v : ℚ) (qs : List Queue)
    (rs : List Role) (x : List Initiative) :
    annotateInits { p with attritionMonthly := v } qs rs x = annotateInits p qs rs x := rfl

theorem annotateInits_redeploymentPct (p : Params) (v : ℚ) (qs : List Queue)
    (rs : List Role) (x : List Initiative) :
    annotateInits { p with redeploymentPct := v } qs rs x = annotateInits p qs rs x := rfl

/-- Claim C4: the sensitivity chain — ten `run_waterfall` re-invocations
on the base initiative list under ±20 % perturbations of
`volumeGrowth`, `wageInflation`, `discountRate`, `attritionMonthly` and
`redeploymentPct` — leaves the base run's annotated initiative records
(inputs and attached results) exactly unchanged: none of the five
perturbed parameters is read by the annotation slice, and re-annotating
an annotated list is the identity. -/
theorem claim_C4 (p : Params) (qs : List Queue) (rs : List Role)
    (inits : List Initiative) :
    sensChainInits p qs rs (annotateInits p qs rs inits)
      = annotateInits p qs rs inits := by
  unfold sensChainInits
  simp only [annotateInits_volumeGrowth, annotateInits_wageInflation,
    annotateInits_discountRate, annotateInits_attritionMonthly,
    annotateInits_redeploymentPct, annotateInits_idem]

end ContactNavigator
